import Mathlib

/-! The forwarding path of the simple router (`lab1/router/router/sr_router.c`).

A shallow embedding of `sr_handlepacket`, `sr_handle_arp_packet`,
`sr_handle_ip_packet`, `sr_check_packet`, `sr_handle_my_ip_packet`,
`sr_send_icmp3`, `sr_send_icmp` and `sr_send_ip`.

Conventions of the embedding.

* A buffer reached through a C pointer is the list of the bytes from the
  pointer to the end of the buffer, so `packet + 14` is `packet.drop 14` and the
  `len` that travels with `packet` is `packet.length`.  Bytes are natural
  numbers; every numeric read reduces the byte modulo 256.
* A read or a write outside the buffer and a dereference of `NULL` are
  undefined behaviour in C.  The handlers return `Except Fault _` and yield
  `Except.error` exactly there.  `cksum(p, n)` reads the `n` bytes at `p` just
  as `memcpy` does: the call on the received header, `cksum(ip_hdr, ip_hdr_l)`,
  is a fault when the frame ends before those bytes.  Every other call of
  `cksum` is on a buffer that was just allocated with the length passed.
* `uint16_t`/`uint32_t` values that the code only copies and compares (IP
  addresses, the value `cksum` returns) are identified with the base-256
  number of their bytes in memory order, which makes the embedding independent
  of the byte order of the host.  Fields read through `ntohs` are big-endian.
* The calls that leave the file (`sr_attempt_send`, `sr_recv_arp`,
  `sr_send_arp`) are recorded, in order, as a list of `Event`s.
* The packet buffer is lent by the caller and `sr_handle_ip_packet` writes to
  it, so the frame handlers also return the final bytes of the buffer.
* `malloc`/`calloc` are taken to succeed; `fprintf`/`printf`/`print_hdrs` only
  print and are left out.
* Lengths are natural numbers: frames are far shorter than `2^32` bytes, so
  `unsigned int len` is not reduced.  The arithmetic that can wrap is reduced
  explicitly: `ip_ttl - 1` modulo `2^8`, the echo payload length modulo `2^32`,
  `htons(ip_len + len)` modulo `2^16`.
-/

namespace SrRouter

/-! ## Data model -/

/-- Undefined behaviour that the handlers can run into. -/
inductive Fault where
  | oob_read
  | oob_write
  | null_deref
deriving DecidableEq, Repr

/-- Interface record `struct sr_if`: `addr` is the array of `ETHER_ADDR_LEN`
bytes, `ip` the raw 32-bit address. -/
structure sr_if where
  name : String
  addr : List Nat
  ip : Nat
deriving DecidableEq, Repr

/-- Routing table entry `struct sr_rt`. -/
structure sr_rt where
  dest : Nat
  gw : Nat
  mask : Nat
  interface : String
deriving DecidableEq, Repr

/-- The part of `struct sr_instance` that the handlers read. -/
structure sr_instance where
  if_list : List sr_if
  routing_table : List sr_rt
deriving DecidableEq, Repr

/-- A call that leaves `sr_router.c`. -/
inductive Event where
  | attempt_send (next_hop : Nat) (frame : List Nat) (iface : String)
  | recv_arp (arp_packet : List Nat)
  | send_arp (op : Nat) (iface : String) (target_mac : List Nat) (target_ip : Nat)
deriving DecidableEq, Repr

/-- Functions and sizes that `sr_router.c` uses and that are declared in files
outside the sources at hand (`sr_utils`, `sr_rt`, `sr_protocol.h`).  They are
parameters: every theorem holds for each choice of them.  `cksum` takes, as in
C, the buffer that starts at its pointer argument and a length, and returns a
`uint16_t`, which is what `cksum_lt` says; that the bytes it reads are inside
the buffer is checked where it is called.  `ICMP_DATA_SIZE` is the length of
the `data` array of `sr_icmp_t3_hdr_t`, which follows 8 bytes of header. -/
structure Deps where
  cksum : List Nat → Nat → Nat
  cksum_lt : ∀ buf len, cksum buf len < 65536
  longest_prefix_match : sr_instance → Nat → Option sr_rt
  ICMP_DATA_SIZE : Nat

/-! ## Constants of `sr_protocol.h` -/

/-- Modelled from the spec: `sr_protocol.h` is not among the sources;
`sizeof(sr_ethernet_hdr_t)`, destination MAC, source MAC and type. -/
abbrev sizeof_ethernet_hdr : Nat := 14

/-- Modelled from the spec: `sr_protocol.h` is not among the sources;
`sizeof(sr_ip_hdr_t)`, the IPv4 header without options. -/
abbrev sizeof_ip_hdr : Nat := 20

/-- Modelled from the spec: `sr_protocol.h` is not among the sources;
`sizeof(sr_arp_hdr_t)`, an ARP packet for IPv4 over Ethernet. -/
abbrev sizeof_arp_hdr : Nat := 28

/-- Modelled from the spec: `sr_protocol.h` is not among the sources;
`sizeof(sr_icmp_hdr_t)`, type, code and checksum. -/
abbrev sizeof_icmp_hdr : Nat := 4

/-- Modelled from the spec: `sr_protocol.h` is not among the sources;
length of a MAC address. -/
abbrev ETHER_ADDR_LEN : Nat := 6

/-- Modelled from the spec: `sr_protocol.h` is not among the sources;
Ethernet type of IPv4. -/
abbrev ethertype_ip : Nat := 0x0800

/-- Modelled from the spec: `sr_protocol.h` is not among the sources;
Ethernet type of ARP. -/
abbrev ethertype_arp : Nat := 0x0806

/-- Modelled from the spec: `sr_protocol.h` is not among the sources;
IP protocol number of ICMP. -/
abbrev ip_protocol_icmp : Nat := 1

/-- Modelled from the spec: `sr_protocol.h` is not among the sources;
ARP operation `request`. -/
abbrev arp_op_request : Nat := 1

/-- Modelled from the spec: `sr_protocol.h` is not among the sources;
ARP operation `reply`. -/
abbrev arp_op_reply : Nat := 2

/-- Modelled from the spec: `sr_protocol.h` is not among the sources;
the don't-fragment flag of `ip_off`. -/
abbrev IP_DF : Nat := 0x4000

/-- Modelled from the spec: `sr_protocol.h` is not among the sources;
ICMP type echo reply. -/
abbrev icmp_echo_reply : Nat := 0

/-- Modelled from the spec: `sr_protocol.h` is not among the sources;
ICMP type destination unreachable. -/
abbrev icmp_unreach : Nat := 3

/-- Modelled from the spec: `sr_protocol.h` is not among the sources;
ICMP type echo request. -/
abbrev icmp_echo_request : Nat := 8

/-- Modelled from the spec: `sr_protocol.h` is not among the sources;
ICMP type time exceeded. -/
abbrev icmp_ttl : Nat := 11

/-- Modelled from the spec: `sr_protocol.h` is not among the sources;
code of the echo reply. -/
abbrev icmp_echo_reply_code : Nat := 0

/-- Modelled from the spec: `sr_protocol.h` is not among the sources;
code of time exceeded in transit. -/
abbrev icmp_ttl_code : Nat := 0

/-- Modelled from the spec: `sr_protocol.h` is not among the sources;
code network unreachable of type 3. -/
abbrev icmp_network_unreach : Nat := 0

/-- Modelled from the spec: `sr_protocol.h` is not among the sources;
code port unreachable of type 3. -/
abbrev icmp_port_unreach : Nat := 3

/-- Modelled from the spec: `sr_protocol.h` is not among the sources; the
type-3 message is a fixed-size message made to hold the copied IP header and
the first 8 bytes of its payload, which is 28 bytes for a header of
`sizeof(sr_ip_hdr_t)` bytes. -/
abbrev ICMP_DATA_SIZE : Nat := sizeof_ip_hdr + 8

/-! ## Memory access -/

/-- The `n` bytes at offset `off`, as `memcpy` or `cksum` read them. -/
def read_bytes (buf : List Nat) (off n : Nat) : Except Fault (List Nat) :=
  if off + n ≤ buf.length then .ok ((buf.drop off).take n) else .error .oob_read

/-- Byte `i` of a buffer as a number below 256. -/
def byte_at (buf : List Nat) (i : Nat) : Nat := buf.getD i 0 % 256

/-- Big-endian value of the two bytes at `off`. -/
def be16_at (buf : List Nat) (off : Nat) : Nat :=
  byte_at buf off * 256 + byte_at buf (off + 1)

/-- Big-endian value of the four bytes at `off`. -/
def be32_at (buf : List Nat) (off : Nat) : Nat :=
  ((byte_at buf off * 256 + byte_at buf (off + 1)) * 256 + byte_at buf (off + 2)) * 256
    + byte_at buf (off + 3)

/-- Read of a `uint8_t` field. -/
def rd8 (buf : List Nat) (off : Nat) : Except Fault Nat :=
  if off < buf.length then .ok (byte_at buf off) else .error .oob_read

/-- Read of a 16-bit field through `ntohs`. -/
def rd16 (buf : List Nat) (off : Nat) : Except Fault Nat :=
  if off + 2 ≤ buf.length then .ok (be16_at buf off) else .error .oob_read

/-- Read of a raw 32-bit field (an IP address). -/
def rd32 (buf : List Nat) (off : Nat) : Except Fault Nat :=
  if off + 4 ≤ buf.length then .ok (be32_at buf off) else .error .oob_read

/-- The two bytes of a 16-bit value. -/
def bytes16 (v : Nat) : List Nat := [v / 256 % 256, v % 256]

/-- The four bytes of a 32-bit value. -/
def bytes32 (v : Nat) : List Nat :=
  [v / 16777216 % 256, v / 65536 % 256, v / 256 % 256, v % 256]

/-- Overwrite the bytes of `buf` at the offsets `off`, ..., `off + src.length - 1`
with `src`; the handlers use it in bounds only. -/
def write_bytes (buf : List Nat) (off : Nat) (src : List Nat) : List Nat :=
  (List.range buf.length).map fun i =>
    if off ≤ i ∧ i < off + src.length then src.getD (i - off) 0 else buf.getD i 0

/-- The `ETHER_ADDR_LEN` bytes of an address array. -/
def ether_addr (a : List Nat) : List Nat :=
  [a.getD 0 0, a.getD 1 0, a.getD 2 0, a.getD 3 0, a.getD 4 0, a.getD 5 0]

/-! ## Frame fields, for stating properties of frames -/

/-- Ethernet type of a frame (`ntohs(ether_type)`). -/
def frame_ethertype (p : List Nat) : Nat := be16_at p 12

/-- Ethernet source MAC of a frame. -/
def frame_shost (p : List Nat) : List Nat := (p.drop 6).take 6

/-- Header length field `ip_hl` of the IP header of a frame. -/
def frame_ip_hl (p : List Nat) : Nat := byte_at p 14 % 16

/-- Total length field `ntohs(ip_len)` of the IP header of a frame. -/
def frame_ip_len (p : List Nat) : Nat := be16_at p 16

/-- TTL field of the IP header of a frame. -/
def frame_ip_ttl (p : List Nat) : Nat := byte_at p 22

/-- Protocol field of the IP header of a frame. -/
def frame_ip_p (p : List Nat) : Nat := byte_at p 23

/-- Checksum field of the IP header of a frame. -/
def frame_ip_sum (p : List Nat) : Nat := be16_at p 24

/-- Source address of the IP header of a frame. -/
def frame_ip_src (p : List Nat) : Nat := be32_at p 26

/-- Destination address of the IP header of a frame. -/
def frame_ip_dst (p : List Nat) : Nat := be32_at p 30

/-- Header length field `ip_hl` of an IP packet. -/
def ip_hl (ip_hdr : List Nat) : Nat := byte_at ip_hdr 0 % 16

/-- Total length field `ntohs(ip_len)` of an IP packet. -/
def ip_len (ip_hdr : List Nat) : Nat := be16_at ip_hdr 2

/-- Protocol field `ip_p` of an IP packet. -/
def ip_p (ip_hdr : List Nat) : Nat := byte_at ip_hdr 9

/-- Source address `ip_src` of an IP packet. -/
def ip_src (ip_hdr : List Nat) : Nat := be32_at ip_hdr 12

/-- Destination address `ip_dst` of an IP packet. -/
def ip_dst (ip_hdr : List Nat) : Nat := be32_at ip_hdr 16

/-- Operation `ntohs(ar_op)` of an ARP packet. -/
def arp_op (a : List Nat) : Nat := be16_at a 6

/-- Sender hardware address `ar_sha` of an ARP packet. -/
def arp_sha (a : List Nat) : List Nat := (a.drop 8).take ETHER_ADDR_LEN

/-- Sender IP address `ar_sip` of an ARP packet. -/
def arp_sip (a : List Nat) : Nat := be32_at a 14

/-- Target IP address `ar_tip` of an ARP packet. -/
def arp_tip (a : List Nat) : Nat := be32_at a 24

/-! ## Collaborators -/

/-- Modelled from the spec: `sr_get_interface` of `sr_if.c` is not among the
sources; the interface table maps a name to its record, and an unknown name
gives `NULL`. -/
def sr_get_interface_walk : List sr_if → String → Option sr_if
  | [], _ => none
  | i :: rest, name => if i.name = name then some i else sr_get_interface_walk rest name

/-- Modelled from the spec: `sr_get_interface` of `sr_if.c` is not among the
sources; lookup of an interface by name in the interface table. -/
def sr_get_interface (sr : sr_instance) (name : String) : Option sr_if :=
  sr_get_interface_walk sr.if_list name

/-! ## The functions of `sr_router.c` -/

/-- The loop of `sr_check_packet` over the interface list. -/
def sr_check_packet_walk : List sr_if → Nat → Option sr_if
  | [], _ => none
  | iface :: next, ip_dest =>
    if iface.ip = ip_dest then some iface else sr_check_packet_walk next ip_dest

/-- `sr_check_packet`: the first interface whose IP is `ip_dest`, or `NULL`. -/
def sr_check_packet (sr : sr_instance) (ip_dest : Nat) : Option sr_if :=
  sr_check_packet_walk sr.if_list ip_dest

/-- The 20-byte IP header that `sr_send_ip` fills in, with `sum` in the
checksum field: version 4, header length 5, total length `htons(20 + len)`,
`htons(IP_DF)`, TTL 64. -/
def ip_hdr_bytes (sum protocol source dest len : Nat) : List Nat :=
  [0x45, 0, (sizeof_ip_hdr + len) / 256 % 256, (sizeof_ip_hdr + len) % 256, 0, 0,
   IP_DF / 256 % 256, IP_DF % 256, 64, protocol % 256, sum / 256 % 256, sum % 256]
    ++ bytes32 source ++ bytes32 dest

/-- The Ethernet header that `sr_send_ip` fills in: the destination is left
zero, the source is the MAC of the outgoing interface, the type is IP. -/
def eth_hdr_bytes (if_node : sr_if) : List Nat :=
  [0, 0, 0, 0, 0, 0] ++ ether_addr if_node.addr ++ bytes16 ethertype_ip

/-- The frame that `sr_send_ip` builds: `ip_sum` is `cksum(ip, ip_len)`, taken
at the IP header of the frame while the checksum field is zero. -/
def ip_frame (d : Deps) (if_node : sr_if) (protocol source dest : Nat)
    (payload : List Nat) (len : Nat) : List Nat :=
  eth_hdr_bytes if_node
    ++ ip_hdr_bytes (d.cksum (ip_hdr_bytes 0 protocol source dest len ++ payload) sizeof_ip_hdr)
        protocol source dest len
    ++ payload

/-- `sr_send_ip`: route the destination, build Ethernet and IP header around
`len` bytes of `buf` and hand the frame to `sr_attempt_send`. -/
def sr_send_ip (d : Deps) (sr : sr_instance) (protocol source dest : Nat)
    (buf : List Nat) (len : Nat) : Except Fault (List Event) :=
  match d.longest_prefix_match sr dest with
  | none => .ok []
  | some rt_node =>
    match sr_get_interface sr rt_node.interface with
    | none => .ok []
    | some if_node =>
      match read_bytes buf 0 len with
      | .error e => .error e
      | .ok payload =>
        .ok [Event.attempt_send rt_node.gw (ip_frame d if_node protocol source dest payload len)
          if_node.name]

/-- The message that `sr_send_icmp` builds around the bytes `body`: the
checksum is `cksum(icmp, icmp_l)` on the message with a zero checksum field. -/
def icmp_msg (d : Deps) (type code : Nat) (body : List Nat) : List Nat :=
  let sum := d.cksum ([type % 256, code % 256, 0, 0] ++ body) (sizeof_icmp_hdr + body.length)
  [type % 256, code % 256, sum / 256 % 256, sum % 256] ++ body

/-- `sr_send_icmp`: ICMP header followed by `len` bytes of `buf`. -/
def sr_send_icmp (d : Deps) (sr : sr_instance) (type code ip_source ip_dest : Nat)
    (buf : List Nat) (len : Nat) : Except Fault (List Event) :=
  match read_bytes buf 0 len with
  | .error e => .error e
  | .ok body =>
    sr_send_ip d sr ip_protocol_icmp ip_source ip_dest (icmp_msg d type code body)
      (sizeof_icmp_hdr + len)

/-- The fixed-size message that `sr_send_icmp3` builds: type, code, checksum,
`unused`, `next_mtu`, and `data` holding the copied bytes and then zeros. -/
def icmp3_msg (d : Deps) (type code : Nat) (copied : List Nat) : List Nat :=
  let data := copied ++ List.replicate (d.ICMP_DATA_SIZE - copied.length) 0
  let sum := d.cksum ([type % 256, code % 256, 0, 0, 0, 0, 0, 0] ++ data) (8 + d.ICMP_DATA_SIZE)
  [type % 256, code % 256, sum / 256 % 256, sum % 256, 0, 0, 0, 0] ++ data

/-- `sr_send_icmp3`: copy `len` bytes of `data` into the `data` array of a
zeroed `sr_icmp_t3_hdr_t` and send it. -/
def sr_send_icmp3 (d : Deps) (sr : sr_instance) (type code ip_source ip_dest : Nat)
    (data : List Nat) (len : Nat) : Except Fault (List Event) :=
  match read_bytes data 0 len with
  | .error e => .error e
  | .ok copied =>
    if d.ICMP_DATA_SIZE < len then .error .oob_write
    else
      sr_send_ip d sr ip_protocol_icmp ip_source ip_dest (icmp3_msg d type code copied)
        (8 + d.ICMP_DATA_SIZE)

/-- `sr_handle_my_ip_packet`: an IP packet addressed to the router; `ip_hdr`
is the buffer from the IP header on. -/
def sr_handle_my_ip_packet (d : Deps) (sr : sr_instance) (ip_hdr : List Nat) :
    Except Fault (List Event) := do
  let hl ← rd8 ip_hdr 0
  let ip_hdr_l := hl % 16 * 4
  let ip_p ← rd8 ip_hdr 9
  if ip_p = ip_protocol_icmp then do
    let ip_len ← rd16 ip_hdr 2
    let icmp_payload_l := (ip_len + 4294967296 - ip_hdr_l - sizeof_icmp_hdr) % 4294967296
    let icmp_type ← rd8 ip_hdr ip_hdr_l
    if icmp_type = icmp_echo_request then do
      let ip_dst ← rd32 ip_hdr 16
      let ip_src ← rd32 ip_hdr 12
      sr_send_icmp d sr icmp_echo_reply icmp_echo_reply_code ip_dst ip_src
        (ip_hdr.drop (ip_hdr_l + sizeof_icmp_hdr)) icmp_payload_l
    else
      pure []
  else do
    let ip_dst ← rd32 ip_hdr 16
    let ip_src ← rd32 ip_hdr 12
    sr_send_icmp3 d sr icmp_unreach icmp_port_unreach ip_dst ip_src ip_hdr (ip_hdr_l + 8)

/-- `sr_handle_ip_packet`: local delivery, TTL check, TTL and checksum update
in place, then forwarding or network unreachable.  Returns the final bytes of
the packet buffer and the calls made.  `cksum(ip_hdr, ip_hdr_l)` reads
`ip_hdr_l` bytes of the buffer from the IP header on. -/
def sr_handle_ip_packet (d : Deps) (sr : sr_instance) (packet : List Nat)
    (interface : String) : Except Fault (List Nat × List Event) :=
  if packet.length < sizeof_ip_hdr + sizeof_ethernet_hdr then .ok (packet, [])
  else do
    let ip_hdr := packet.drop sizeof_ethernet_hdr
    let hl ← rd8 ip_hdr 0
    let ip_hdr_l := hl % 16 * 4
    let ip_dst ← rd32 ip_hdr 16
    match sr_check_packet sr ip_dst with
    | some _ => do
      let calls ← sr_handle_my_ip_packet d sr ip_hdr
      pure (packet, calls)
    | none => do
      let ttl ← rd8 ip_hdr 8
      let new_ttl := (ttl + 255) % 256
      if new_ttl = 0 then do
        let copied ← read_bytes ip_hdr 0 (ip_hdr_l + 8)
        let buf := List.replicate 4 0 ++ copied
        match sr_get_interface sr interface with
        | none => .error .null_deref
        | some iface => do
          let ip_src ← rd32 ip_hdr 12
          let calls ← sr_send_icmp d sr icmp_ttl icmp_ttl_code iface.ip ip_src buf
            (4 + ip_hdr_l + 8)
          pure (packet, calls)
      else do
        let packet1 := write_bytes (write_bytes packet 22 [new_ttl]) 24 [0, 0]
        let _ ← read_bytes (packet1.drop sizeof_ethernet_hdr) 0 ip_hdr_l
        let packet2 := write_bytes packet1 24
          (bytes16 (d.cksum (packet1.drop sizeof_ethernet_hdr) ip_hdr_l))
        match d.longest_prefix_match sr ip_dst with
        | some route =>
          match sr_get_interface sr route.interface with
          | none => .error .null_deref
          | some node =>
            let temp := write_bytes packet2 6 (ether_addr node.addr)
            .ok (packet2, [Event.attempt_send route.gw temp route.interface])
        | none =>
          match sr_get_interface sr interface with
          | none => .error .null_deref
          | some ifback => do
            let ip_src ← rd32 (packet2.drop sizeof_ethernet_hdr) 12
            let calls ← sr_send_icmp3 d sr icmp_unreach icmp_network_unreach ifback.ip ip_src
              (packet2.drop sizeof_ethernet_hdr) (ip_hdr_l + 8)
            pure (packet2, calls)

/-- `sr_handle_arp_packet`: `arp_packet` is the buffer from the ARP header on,
its length the `len` of the call. -/
def sr_handle_arp_packet (sr : sr_instance) (arp_packet : List Nat)
    (interface : String) : Except Fault (List Event) :=
  if arp_packet.length < sizeof_arp_hdr then .ok []
  else
    match sr_get_interface sr interface with
    | none => .error .null_deref
    | some iface => do
      let ar_tip ← rd32 arp_packet 24
      if iface.ip = ar_tip then do
        let ar_op ← rd16 arp_packet 6
        if ar_op = arp_op_request then do
          let ar_sha ← read_bytes arp_packet 8 ETHER_ADDR_LEN
          let ar_sip ← rd32 arp_packet 14
          pure [Event.recv_arp arp_packet,
                Event.send_arp arp_op_reply interface ar_sha ar_sip]
        else if ar_op = arp_op_reply then
          pure [Event.recv_arp arp_packet]
        else
          pure [Event.recv_arp arp_packet]
      else
        pure []

/-- `sr_handlepacket`: the entry point, which looks at the Ethernet type. -/
def sr_handlepacket (d : Deps) (sr : sr_instance) (packet : List Nat)
    (interface : String) : Except Fault (List Nat × List Event) :=
  if packet.length < sizeof_ethernet_hdr then .ok (packet, [])
  else do
    let ethtype ← rd16 packet 12
    if ethtype = ethertype_ip then
      sr_handle_ip_packet d sr packet interface
    else if ethtype = ethertype_arp then do
      let calls ← sr_handle_arp_packet sr (packet.drop sizeof_ethernet_hdr) interface
      pure (packet, calls)
    else
      pure (packet, [])

/-! ## Names for the buffers and messages of `sr_handle_ip_packet` -/

/-- The packet buffer after `ip_ttl = new_ttl; ip_sum = 0`. -/
def buffer_zero_sum (packet : List Nat) : List Nat :=
  write_bytes (write_bytes packet 22 [(frame_ip_ttl packet + 255) % 256]) 24 [0, 0]

/-- The packet buffer after `ip_sum = cksum(ip_hdr, ip_hdr_l)`. -/
def buffer_new_sum (d : Deps) (packet : List Nat) : List Nat :=
  write_bytes (buffer_zero_sum packet) 24
    (bytes16 (d.cksum ((buffer_zero_sum packet).drop 14) (frame_ip_hl packet * 4)))

/-- The time-exceeded message: `buf` is four zero bytes and then `ip_hl*4 + 8`
bytes of the frame from its IP header on. -/
def time_exceeded_msg (d : Deps) (packet : List Nat) : List Nat :=
  icmp_msg d icmp_ttl icmp_ttl_code
    (List.replicate 4 0 ++ (packet.drop 14).take (frame_ip_hl packet * 4 + 8))

/-- The network-unreachable message, built from the packet buffer as it is
when `sr_send_icmp3` is called. -/
def net_unreach_msg (d : Deps) (packet : List Nat) : List Nat :=
  icmp3_msg d icmp_unreach icmp_network_unreach
    (((buffer_new_sum d packet).drop 14).take (frame_ip_hl packet * 4 + 8))

/-- The echo reply to the IP packet `ip_hdr`. -/
def echo_reply_msg (d : Deps) (ip_hdr : List Nat) : List Nat :=
  icmp_msg d icmp_echo_reply icmp_echo_reply_code
    ((ip_hdr.drop (ip_hl ip_hdr * 4 + sizeof_icmp_hdr)).take
      (ip_len ip_hdr - ip_hl ip_hdr * 4 - sizeof_icmp_hdr))

/-- The port-unreachable message for the IP packet `ip_hdr`. -/
def port_unreach_msg (d : Deps) (ip_hdr : List Nat) : List Nat :=
  icmp3_msg d icmp_unreach icmp_port_unreach (ip_hdr.take (ip_hl ip_hdr * 4 + 8))

/-! ## A sample configuration, for the closed examples -/

/-- Sum of the 16-bit big-endian words of a byte string. -/
def sum16 : List Nat → Nat
  | [] => 0
  | [a] => a % 256 * 256
  | a :: b :: rest => a % 256 * 256 + b % 256 + sum16 rest

/-- A one's-complement checksum over the first `len` bytes of a buffer, as an
instance of the parameter `cksum`. -/
def sample_cksum (buf : List Nat) (len : Nat) : Nat :=
  let s := sum16 (buf.take len)
  let f := s % 65536 + s / 65536
  let g := f % 65536 + f / 65536
  if g % 65536 = 65535 then 65535 else 65535 - g % 65536

/-- A route lookup by longest mask, as an instance of the parameter
`longest_prefix_match`. -/
def sample_lpm (sr : sr_instance) (ip : Nat) : Option sr_rt :=
  sr.routing_table.foldl (fun best r =>
    if r.dest &&& r.mask = ip &&& r.mask then
      match best with
      | none => some r
      | some b => if b.mask < r.mask then some r else some b
    else best) none

/-- The sample collaborators; the `data` array has 28 bytes. -/
def sample_deps : Deps where
  cksum := sample_cksum
  cksum_lt := by
    intro buf len
    unfold sample_cksum
    simp only
    split <;> omega
  longest_prefix_match := sample_lpm
  ICMP_DATA_SIZE := 28

/-- The interface `eth0` of the sample router. -/
def sample_eth0 : sr_if := { name := "eth0", addr := [2, 0, 0, 0, 0, 1], ip := 0x0A000101 }

/-- The interface `eth1` of the sample router. -/
def sample_eth1 : sr_if := { name := "eth1", addr := [2, 0, 0, 0, 0, 2], ip := 0xC0A80201 }

/-- The route of the sample router to 10.0.1.0/24. -/
def sample_rt0 : sr_rt :=
  { dest := 0x0A000100, gw := 0x0A000102, mask := 0xFFFFFF00, interface := "eth0" }

/-- The route of the sample router to 192.168.2.0/24. -/
def sample_rt1 : sr_rt :=
  { dest := 0xC0A80200, gw := 0xC0A80202, mask := 0xFFFFFF00, interface := "eth1" }

/-- A router with two interfaces, 10.0.1.1 on `eth0` and 192.168.2.1 on `eth1`,
and a route for each of the two attached /24 networks. -/
def sample_sr : sr_instance where
  if_list := [sample_eth0, sample_eth1]
  routing_table := [sample_rt0, sample_rt1]

/-- An ARP request of 10.0.1.7 for 10.0.1.1, Ethernet header included. -/
def sample_arp_request : List Nat :=
  [255, 255, 255, 255, 255, 255, 2, 0, 0, 0, 0, 7, 8, 6,
   0, 1, 8, 0, 6, 4, 0, 1,
   2, 0, 0, 0, 0, 7, 10, 0, 1, 7,
   0, 0, 0, 0, 0, 0, 10, 0, 1, 1]

/-- Echo request of 10.0.1.7 to the router's 10.0.1.1, TTL 64. -/
def sample_ping : List Nat :=
  [2, 0, 0, 0, 0, 1, 2, 0, 0, 0, 0, 7, 8, 0,
   69, 0, 0, 32, 0, 0, 0, 0, 64, 1, 100, 214, 10, 0, 1, 7, 10, 0, 1, 1,
   8, 0, 235, 239, 0, 1, 0, 1, 5, 6, 7, 8]

/-- Echo request of 10.0.1.7 to the router's 10.0.1.1, TTL 1. -/
def sample_ping_ttl1 : List Nat :=
  [2, 0, 0, 0, 0, 1, 2, 0, 0, 0, 0, 7, 8, 0,
   69, 0, 0, 32, 0, 0, 0, 0, 1, 1, 163, 214, 10, 0, 1, 7, 10, 0, 1, 1,
   8, 0, 235, 239, 0, 1, 0, 1, 5, 6, 7, 8]

/-- Echo request to the router whose total length field is 0. -/
def sample_ping_len0 : List Nat :=
  [2, 0, 0, 0, 0, 1, 2, 0, 0, 0, 0, 7, 8, 0,
   69, 0, 0, 0, 0, 0, 0, 0, 64, 1, 100, 246, 10, 0, 1, 7, 10, 0, 1, 1,
   8, 0, 235, 239, 0, 1, 0, 1, 5, 6, 7, 8]

/-- Echo request to the router that announces 32 bytes and carries 28. -/
def sample_ping_truncated : List Nat :=
  [2, 0, 0, 0, 0, 1, 2, 0, 0, 0, 0, 7, 8, 0,
   69, 0, 0, 32, 0, 0, 0, 0, 64, 1, 100, 214, 10, 0, 1, 7, 10, 0, 1, 1,
   8, 0, 235, 239, 0, 1, 0, 1]

/-- UDP datagram of 10.0.1.7 to 192.168.2.9, TTL 64. -/
def sample_transit : List Nat :=
  [2, 0, 0, 0, 0, 1, 2, 0, 0, 0, 0, 7, 8, 0,
   69, 0, 0, 32, 0, 0, 0, 0, 64, 17, 173, 21, 10, 0, 1, 7, 192, 168, 2, 9,
   48, 57, 0, 53, 0, 12, 0, 0, 1, 2, 3, 4]

/-- UDP datagram of 10.0.1.7 to 192.168.2.9, TTL 1. -/
def sample_transit_ttl1 : List Nat :=
  [2, 0, 0, 0, 0, 1, 2, 0, 0, 0, 0, 7, 8, 0,
   69, 0, 0, 32, 0, 0, 0, 0, 1, 17, 236, 21, 10, 0, 1, 7, 192, 168, 2, 9,
   48, 57, 0, 53, 0, 12, 0, 0, 1, 2, 3, 4]

/-- UDP datagram of 172.16.0.5, to which the router has no route, to
192.168.2.9, TTL 1. -/
def sample_transit_ttl1_far : List Nat :=
  [2, 0, 0, 0, 0, 1, 2, 0, 0, 0, 0, 7, 8, 0,
   69, 0, 0, 32, 0, 0, 0, 0, 1, 17, 75, 7, 172, 16, 0, 5, 192, 168, 2, 9,
   48, 57, 0, 53, 0, 12, 0, 0, 1, 2, 3, 4]

/-- IP header without payload, 34 bytes, of 10.0.1.7 to 192.168.2.9, TTL 1. -/
def sample_bare_ttl1 : List Nat :=
  [2, 0, 0, 0, 0, 1, 2, 0, 0, 0, 0, 7, 8, 0,
   69, 0, 0, 20, 0, 0, 0, 0, 1, 17, 236, 33, 10, 0, 1, 7, 192, 168, 2, 9]

/-- UDP datagram of 10.0.1.7 to 172.16.0.5, for which there is no route, TTL 64. -/
def sample_unrouted : List Nat :=
  [2, 0, 0, 0, 0, 1, 2, 0, 0, 0, 0, 7, 8, 0,
   69, 0, 0, 32, 0, 0, 0, 0, 64, 17, 195, 177, 10, 0, 1, 7, 172, 16, 0, 5,
   48, 57, 0, 53, 0, 12, 0, 0, 1, 2, 3, 4]

/-- UDP datagram of 10.0.1.7 to 172.16.0.5, for which there is no route, TTL 1. -/
def sample_unrouted_ttl1 : List Nat :=
  [2, 0, 0, 0, 0, 1, 2, 0, 0, 0, 0, 7, 8, 0,
   69, 0, 0, 32, 0, 0, 0, 0, 1, 17, 2, 178, 10, 0, 1, 7, 172, 16, 0, 5,
   48, 57, 0, 53, 0, 12, 0, 0, 1, 2, 3, 4]

/-- UDP datagram of 172.16.0.5 to 172.16.9.9: no route for either, TTL 64. -/
def sample_unrouted_far : List Nat :=
  [2, 0, 0, 0, 0, 1, 2, 0, 0, 0, 0, 7, 8, 0,
   69, 0, 0, 32, 0, 0, 0, 0, 64, 17, 25, 159, 172, 16, 0, 5, 172, 16, 9, 9,
   48, 57, 0, 53, 0, 12, 0, 0, 1, 2, 3, 4]

/-- IP header without payload, 34 bytes, of 10.0.1.7 to 172.16.0.5, TTL 64. -/
def sample_bare_unrouted : List Nat :=
  [2, 0, 0, 0, 0, 1, 2, 0, 0, 0, 0, 7, 8, 0,
   69, 0, 0, 20, 0, 0, 0, 0, 64, 17, 195, 189, 10, 0, 1, 7, 172, 16, 0, 5]

/-- UDP datagram of 10.0.1.7 to the router's 10.0.1.1. -/
def sample_udp_me : List Nat :=
  [2, 0, 0, 0, 0, 1, 2, 0, 0, 0, 0, 7, 8, 0,
   69, 0, 0, 32, 0, 0, 0, 0, 64, 17, 100, 198, 10, 0, 1, 7, 10, 0, 1, 1,
   48, 57, 0, 53, 0, 12, 0, 0, 1, 2, 3, 4]

/-- IP packet to the router with protocol UDP and 4 bytes after the header. -/
def sample_udp_me_short : List Nat :=
  [2, 0, 0, 0, 0, 1, 2, 0, 0, 0, 0, 7, 8, 0,
   69, 0, 0, 24, 0, 0, 0, 0, 64, 17, 100, 206, 10, 0, 1, 7, 10, 0, 1, 1,
   48, 57, 0, 53]

/-- UDP datagram to the router whose IP header carries one word of options. -/
def sample_udp_me_options : List Nat :=
  [2, 0, 0, 0, 0, 1, 2, 0, 0, 0, 0, 7, 8, 0,
   70, 0, 0, 36, 0, 0, 0, 0, 64, 17, 97, 192, 10, 0, 1, 7, 10, 0, 1, 1, 1, 1, 1, 1,
   48, 57, 0, 53, 0, 12, 0, 0, 1, 2, 3, 4]

/-- IP header without payload, 34 bytes, protocol ICMP, of 10.0.1.7 to the
router's 10.0.1.1. -/
def sample_bare_icmp_me : List Nat :=
  [2, 0, 0, 0, 0, 1, 2, 0, 0, 0, 0, 7, 8, 0,
   69, 0, 0, 20, 0, 0, 0, 0, 64, 1, 100, 226, 10, 0, 1, 7, 10, 0, 1, 1]

/-- An ICMP message of type 0 (echo reply) of 10.0.1.7 to the router's 10.0.1.1. -/
def sample_icmp_other : List Nat :=
  [2, 0, 0, 0, 0, 1, 2, 0, 0, 0, 0, 7, 8, 0,
   69, 0, 0, 28, 0, 0, 0, 0, 64, 1, 100, 218, 10, 0, 1, 7, 10, 0, 1, 1,
   0, 0, 255, 255, 0, 1, 0, 1]

/-- A frame of 46 bytes in transit with TTL 1 whose header length field says
15 words (60 bytes). -/
def sample_ttl1_hl15 : List Nat :=
  [2, 0, 0, 0, 0, 1, 2, 0, 0, 0, 0, 7, 8, 0,
   79, 0, 0, 32, 0, 0, 0, 0, 1, 17, 226, 21, 10, 0, 1, 7, 192, 168, 2, 9,
   48, 57, 0, 53, 0, 12, 0, 0, 1, 2, 3, 4]

/-- UDP datagram of 10.0.1.7 to 192.168.2.9 that arrives with TTL 0. -/
def sample_transit_ttl0 : List Nat :=
  [2, 0, 0, 0, 0, 1, 2, 0, 0, 0, 0, 7, 8, 0,
   69, 0, 0, 32, 0, 0, 0, 0, 0, 17, 237, 21, 10, 0, 1, 7, 192, 168, 2, 9,
   48, 57, 0, 53, 0, 12, 0, 0, 1, 2, 3, 4]

/-- A frame of 34 bytes of 10.0.1.7 to 192.168.2.9 with TTL 64 whose header
length field says 15 words (60 bytes). -/
def sample_bare_hl15 : List Nat :=
  [2, 0, 0, 0, 0, 1, 2, 0, 0, 0, 0, 7, 8, 0,
   79, 0, 0, 20, 0, 0, 0, 0, 64, 17, 163, 33, 10, 0, 1, 7, 192, 168, 2, 9]

/-- The sample router without `eth1` in its interface table; the route to
192.168.2.0/24 still names `eth1`. -/
def sample_sr_eth0_only : sr_instance where
  if_list := [sample_eth0]
  routing_table := [sample_rt0, sample_rt1]

/-! ## Reads that are in bounds -/

theorem read_bytes_ok (buf : List Nat) (off n : Nat) (h : off + n ≤ buf.length) :
    read_bytes buf off n = .ok ((buf.drop off).take n) := by
  simp [read_bytes, h]

theorem rd8_ok (buf : List Nat) (off : Nat) (h : off < buf.length) :
    rd8 buf off = .ok (byte_at buf off) := by
  simp [rd8, h]

theorem rd16_ok (buf : List Nat) (off : Nat) (h : off + 2 ≤ buf.length) :
    rd16 buf off = .ok (be16_at buf off) := by
  simp [rd16, h]

theorem rd32_ok (buf : List Nat) (off : Nat) (h : off + 4 ≤ buf.length) :
    rd32 buf off = .ok (be32_at buf off) := by
  simp [rd32, h]

/-! ## Bytes of buffers -/

theorem byte_at_lt (l : List Nat) (i : Nat) : byte_at l i < 256 := by
  unfold byte_at
  omega

theorem be16_at_lt (l : List Nat) (i : Nat) : be16_at l i < 65536 := by
  have h0 := byte_at_lt l i
  have h1 := byte_at_lt l (i + 1)
  unfold be16_at
  omega

theorem be32_at_lt (l : List Nat) (i : Nat) : be32_at l i < 4294967296 := by
  have h0 := byte_at_lt l i
  have h1 := byte_at_lt l (i + 1)
  have h2 := byte_at_lt l (i + 2)
  have h3 := byte_at_lt l (i + 3)
  unfold be32_at
  omega

theorem byte_at_cons_zero (v : Nat) (l : List Nat) : byte_at (v :: l) 0 = v % 256 := rfl

theorem byte_at_cons_succ (v : Nat) (l : List Nat) (i : Nat) :
    byte_at (v :: l) (i + 1) = byte_at l i := rfl

theorem getD_drop_nat (l : List Nat) (n i : Nat) : (l.drop n).getD i 0 = l.getD (n + i) 0 := by
  simp [List.getD_eq_getElem?_getD, List.getElem?_drop]

theorem getD_take_nat (l : List Nat) (n i : Nat) :
    (l.take n).getD i 0 = if i < n then l.getD i 0 else 0 := by
  by_cases h : i < n
  · simp [List.getD_eq_getElem?_getD, List.getElem?_take, h]
  · simp [List.getD_eq_getElem?_getD, List.getElem?_take, h]

theorem ext_getD (l1 l2 : List Nat) (hlen : l1.length = l2.length)
    (h : ∀ i, i < l1.length → l1.getD i 0 = l2.getD i 0) : l1 = l2 := by
  apply List.ext_getElem hlen
  intro i h1 h2
  have := h i h1
  simpa [List.getD_eq_getElem?_getD, List.getElem?_eq_getElem, h1, h2] using this

theorem drop_congr_getD (a b : List Nat) (k : Nat) (hlen : a.length = b.length)
    (h : ∀ i, k ≤ i → a.getD i 0 = b.getD i 0) : a.drop k = b.drop k := by
  apply ext_getD
  · simp [hlen]
  · intro i _
    rw [getD_drop_nat, getD_drop_nat]
    exact h (k + i) (by omega)

theorem byte_at_drop (l : List Nat) (n i : Nat) : byte_at (l.drop n) i = byte_at l (n + i) := by
  simp [byte_at, getD_drop_nat]

theorem be16_at_drop (l : List Nat) (n i : Nat) : be16_at (l.drop n) i = be16_at l (n + i) := by
  simp [be16_at, byte_at_drop, Nat.add_assoc]

theorem be32_at_drop (l : List Nat) (n i : Nat) : be32_at (l.drop n) i = be32_at l (n + i) := by
  simp [be32_at, byte_at_drop, Nat.add_assoc]

theorem rd8_drop_ok (p : List Nat) (n i : Nat) (h : n + i < p.length) :
    rd8 (p.drop n) i = .ok (byte_at p (n + i)) := by
  rw [rd8_ok _ _ (by simp; omega), byte_at_drop]

theorem rd16_drop_ok (p : List Nat) (n i : Nat) (h : n + i + 2 ≤ p.length) :
    rd16 (p.drop n) i = .ok (be16_at p (n + i)) := by
  rw [rd16_ok _ _ (by simp; omega), be16_at_drop]

theorem rd32_drop_ok (p : List Nat) (n i : Nat) (h : n + i + 4 ≤ p.length) :
    rd32 (p.drop n) i = .ok (be32_at p (n + i)) := by
  rw [rd32_ok _ _ (by simp; omega), be32_at_drop]

theorem read_bytes_all (buf : List Nat) : read_bytes buf 0 buf.length = .ok buf := by
  simp [read_bytes]

theorem read_bytes_take (buf : List Nat) (len : Nat) (h : len ≤ buf.length) :
    read_bytes buf 0 len = .ok (buf.take len) := by
  rw [read_bytes_ok _ _ _ (by omega)]
  simp

theorem read_bytes_error (buf : List Nat) (off n : Nat) (h : ¬ off + n ≤ buf.length) :
    read_bytes buf off n = .error .oob_read := by
  simp [read_bytes, h]

/-! ## Writes to buffers -/

theorem getD_write_bytes (buf : List Nat) (off : Nat) (src : List Nat) (i : Nat) :
    (write_bytes buf off src).getD i 0 =
      if i < buf.length then
        (if off ≤ i ∧ i < off + src.length then src.getD (i - off) 0 else buf.getD i 0)
      else 0 := by
  unfold write_bytes
  by_cases h : i < buf.length
  · simp [List.getD_eq_getElem?_getD, List.getElem?_map, List.getElem?_range, h]
  · have hr : (List.range buf.length)[i]? = none := by
      apply List.getElem?_eq_none
      simpa using h
    simp [List.getD_eq_getElem?_getD, List.getElem?_map, h, hr]

@[simp] theorem length_write_bytes (buf : List Nat) (off : Nat) (src : List Nat) :
    (write_bytes buf off src).length = buf.length := by
  simp [write_bytes]

@[simp] theorem length_ether_addr (a : List Nat) : (ether_addr a).length = 6 := rfl

theorem byte_at_write_bytes (buf : List Nat) (off : Nat) (src : List Nat) (i : Nat) :
    byte_at (write_bytes buf off src) i =
      if i < buf.length then
        (if off ≤ i ∧ i < off + src.length then byte_at src (i - off) else byte_at buf i)
      else 0 := by
  simp only [byte_at, getD_write_bytes]
  split_ifs <;> simp

theorem take_drop_write_bytes (buf : List Nat) (off : Nat) (src : List Nat)
    (h : off + src.length ≤ buf.length) :
    ((write_bytes buf off src).drop off).take src.length = src := by
  apply ext_getD
  · simp; omega
  · intro i hi
    have hi' : i < src.length := by
      simp at hi
      omega
    rw [getD_take_nat, getD_drop_nat, getD_write_bytes]
    simp [hi']
    intro h'
    omega

theorem be16_at_bytes16_write (buf : List Nat) (off v : Nat) (h : off + 2 ≤ buf.length)
    (hv : v < 65536) : be16_at (write_bytes buf off (bytes16 v)) off = v := by
  simp only [be16_at, byte_at_write_bytes, bytes16, List.length_cons, List.length_nil]
  have h1 : off < buf.length := by omega
  have h2 : off + 1 < buf.length := by omega
  simp [h1, h2, byte_at]
  omega

@[simp] theorem length_buffer_zero_sum (packet : List Nat) :
    (buffer_zero_sum packet).length = packet.length := by
  simp [buffer_zero_sum]

@[simp] theorem length_buffer_new_sum (d : Deps) (packet : List Nat) :
    (buffer_new_sum d packet).length = packet.length := by
  simp [buffer_new_sum]

theorem frame_ip_src_buffer_new_sum (d : Deps) (packet : List Nat)
    (hlen : 34 ≤ packet.length) :
    frame_ip_src (buffer_new_sum d packet) = frame_ip_src packet := by
  have h26 : 26 < packet.length := by omega
  have h27 : 27 < packet.length := by omega
  have h28 : 28 < packet.length := by omega
  have h29 : 29 < packet.length := by omega
  simp [frame_ip_src, be32_at, byte_at_write_bytes, buffer_new_sum, buffer_zero_sum, bytes16,
    h26, h27, h28, h29]

/-! ## The frames that `sr_send_ip` builds -/

theorem ip_frame_explicit (d : Deps) (ifn : sr_if) (protocol source dest : Nat)
    (payload : List Nat) (len : Nat) :
    ip_frame d ifn protocol source dest payload len =
      0 :: 0 :: 0 :: 0 :: 0 :: 0 ::
      ifn.addr.getD 0 0 :: ifn.addr.getD 1 0 :: ifn.addr.getD 2 0 :: ifn.addr.getD 3 0 ::
      ifn.addr.getD 4 0 :: ifn.addr.getD 5 0 :: 8 :: 0 ::
      69 :: 0 :: (20 + len) / 256 % 256 :: (20 + len) % 256 :: 0 :: 0 :: 64 :: 0 ::
      64 :: protocol % 256 ::
      d.cksum (ip_hdr_bytes 0 protocol source dest len ++ payload) 20 / 256 % 256 ::
      d.cksum (ip_hdr_bytes 0 protocol source dest len ++ payload) 20 % 256 ::
      source / 16777216 % 256 :: source / 65536 % 256 :: source / 256 % 256 :: source % 256 ::
      dest / 16777216 % 256 :: dest / 65536 % 256 :: dest / 256 % 256 :: dest % 256 ::
      payload := by
  simp only [ip_frame, eth_hdr_bytes, ip_hdr_bytes, ether_addr, bytes16, bytes32,
    List.cons_append, List.nil_append, List.append_assoc]
  norm_num

theorem ip_frame_drop (d : Deps) (ifn : sr_if) (protocol source dest : Nat)
    (payload : List Nat) (len : Nat) :
    (ip_frame d ifn protocol source dest payload len).drop 34 = payload := by
  rw [ip_frame_explicit]
  rfl

theorem ip_frame_length (d : Deps) (ifn : sr_if) (protocol source dest : Nat)
    (payload : List Nat) (len : Nat) :
    (ip_frame d ifn protocol source dest payload len).length = 34 + payload.length := by
  rw [ip_frame_explicit]
  simp only [List.length_cons]
  omega

theorem ip_frame_payload_byte (d : Deps) (ifn : sr_if) (protocol source dest : Nat)
    (payload : List Nat) (len i : Nat) :
    byte_at (ip_frame d ifn protocol source dest payload len) (34 + i) = byte_at payload i := by
  rw [← byte_at_drop, ip_frame_drop]

theorem ip_frame_ethertype (d : Deps) (ifn : sr_if) (protocol source dest : Nat)
    (payload : List Nat) (len : Nat) :
    frame_ethertype (ip_frame d ifn protocol source dest payload len) = ethertype_ip := by
  rw [ip_frame_explicit]
  simp [frame_ethertype, be16_at, byte_at]

theorem ip_frame_version_hl (d : Deps) (ifn : sr_if) (protocol source dest : Nat)
    (payload : List Nat) (len : Nat) :
    byte_at (ip_frame d ifn protocol source dest payload len) 14 = 69 := by
  rw [ip_frame_explicit]
  simp [byte_at]

theorem ip_frame_ip_p (d : Deps) (ifn : sr_if) (protocol source dest : Nat)
    (payload : List Nat) (len : Nat) :
    frame_ip_p (ip_frame d ifn protocol source dest payload len) = protocol % 256 := by
  rw [ip_frame_explicit]
  simp [frame_ip_p, byte_at]

theorem ip_frame_ip_src (d : Deps) (ifn : sr_if) (protocol source dest : Nat)
    (payload : List Nat) (len : Nat) :
    frame_ip_src (ip_frame d ifn protocol source dest payload len) = source % 4294967296 := by
  rw [ip_frame_explicit]
  simp only [frame_ip_src, be32_at, byte_at, List.getD_cons_succ, List.getD_cons_zero]
  omega

theorem ip_frame_ip_dst (d : Deps) (ifn : sr_if) (protocol source dest : Nat)
    (payload : List Nat) (len : Nat) :
    frame_ip_dst (ip_frame d ifn protocol source dest payload len) = dest % 4294967296 := by
  rw [ip_frame_explicit]
  simp only [frame_ip_dst, be32_at, byte_at, List.getD_cons_succ, List.getD_cons_zero]
  omega

theorem icmp_msg_length (d : Deps) (type code : Nat) (body : List Nat) :
    (icmp_msg d type code body).length = 4 + body.length := by
  simp [icmp_msg]
  omega

theorem icmp3_msg_length (d : Deps) (type code : Nat) (copied : List Nat)
    (h : copied.length ≤ d.ICMP_DATA_SIZE) :
    (icmp3_msg d type code copied).length = 8 + d.ICMP_DATA_SIZE := by
  simp [icmp3_msg]
  omega

/-! ## The send path -/

theorem sr_send_ip_routed (d : Deps) (sr : sr_instance) (protocol source dest : Nat)
    (buf : List Nat) (len : Nat) (rt : sr_rt) (ifn : sr_if) (hlen : len = buf.length)
    (hrt : d.longest_prefix_match sr dest = some rt)
    (hif : sr_get_interface sr rt.interface = some ifn) :
    sr_send_ip d sr protocol source dest buf len =
      .ok [Event.attempt_send rt.gw (ip_frame d ifn protocol source dest buf len) ifn.name] := by
  subst hlen
  simp [sr_send_ip, hrt, hif, read_bytes_all]

theorem sr_send_ip_unrouted (d : Deps) (sr : sr_instance) (protocol source dest : Nat)
    (buf : List Nat) (len : Nat)
    (h : d.longest_prefix_match sr dest = none ∨
      ∃ rt, d.longest_prefix_match sr dest = some rt ∧ sr_get_interface sr rt.interface = none) :
    sr_send_ip d sr protocol source dest buf len = .ok [] := by
  rcases h with h | ⟨rt, h1, h2⟩
  · simp [sr_send_ip, h]
  · simp [sr_send_ip, h1, h2]

theorem sr_send_ip_calls (d : Deps) (sr : sr_instance) (protocol source dest : Nat)
    (buf : List Nat) (len : Nat) (calls : List Event)
    (h : sr_send_ip d sr protocol source dest buf len = .ok calls) :
    calls = [] ∨ ∃ (rt : sr_rt) (ifn : sr_if), calls =
      [Event.attempt_send rt.gw (ip_frame d ifn protocol source dest (buf.take len) len)
        ifn.name] := by
  unfold sr_send_ip at h
  cases hrt : d.longest_prefix_match sr dest with
  | none =>
    simp only [hrt] at h
    left
    injection h with h
    exact h.symm
  | some rt =>
    simp only [hrt] at h
    cases hif : sr_get_interface sr rt.interface with
    | none =>
      simp only [hif] at h
      left
      injection h with h
      exact h.symm
    | some ifn =>
      simp only [hif] at h
      by_cases hlen : len ≤ buf.length
      · rw [read_bytes_take _ _ hlen] at h
        simp only at h
        right
        injection h with h
        exact ⟨rt, ifn, h.symm⟩
      · rw [read_bytes_error _ _ _ (by omega)] at h
        simp at h

theorem sr_send_ip_congr (d d' : Deps) (sr : sr_instance) (protocol source dest : Nat)
    (buf : List Nat) (len : Nat) (hc : d'.cksum = d.cksum)
    (hl : d'.longest_prefix_match sr dest = d.longest_prefix_match sr dest) :
    sr_send_ip d' sr protocol source dest buf len = sr_send_ip d sr protocol source dest buf len := by
  unfold sr_send_ip ip_frame
  rw [hc, hl]

theorem sr_send_icmp_ok (d : Deps) (sr : sr_instance) (type code ip_source ip_dest : Nat)
    (buf : List Nat) (len : Nat) (hread : len ≤ buf.length) :
    sr_send_icmp d sr type code ip_source ip_dest buf len =
      sr_send_ip d sr ip_protocol_icmp ip_source ip_dest (icmp_msg d type code (buf.take len))
        (icmp_msg d type code (buf.take len)).length := by
  have h3 : (buf.take len).length = len := by simp; omega
  simp [sr_send_icmp, read_bytes_take _ _ hread, icmp_msg_length, h3]

theorem sr_send_icmp_congr (d d' : Deps) (sr : sr_instance) (type code ip_source ip_dest : Nat)
    (buf : List Nat) (len : Nat) (hc : d'.cksum = d.cksum)
    (hl : d'.longest_prefix_match sr ip_dest = d.longest_prefix_match sr ip_dest) :
    sr_send_icmp d' sr type code ip_source ip_dest buf len =
      sr_send_icmp d sr type code ip_source ip_dest buf len := by
  unfold sr_send_icmp icmp_msg
  cases read_bytes buf 0 len with
  | error e => rfl
  | ok body =>
    simp only
    rw [sr_send_ip_congr d d' sr _ _ _ _ _ hc hl, hc]

theorem sr_send_icmp3_ok (d : Deps) (sr : sr_instance) (type code ip_source ip_dest : Nat)
    (data : List Nat) (len : Nat) (hread : len ≤ data.length) (hfit : len ≤ d.ICMP_DATA_SIZE) :
    sr_send_icmp3 d sr type code ip_source ip_dest data len =
      sr_send_ip d sr ip_protocol_icmp ip_source ip_dest
        (icmp3_msg d type code (data.take len))
        (icmp3_msg d type code (data.take len)).length := by
  have h2 : ¬ d.ICMP_DATA_SIZE < len := by omega
  have h3 : (data.take len).length = len := by simp; omega
  simp [sr_send_icmp3, read_bytes_take _ _ hread, h2, icmp3_msg_length, h3, hfit]

theorem sr_send_icmp3_congr (d d' : Deps) (sr : sr_instance) (type code ip_source ip_dest : Nat)
    (data : List Nat) (len : Nat) (hc : d'.cksum = d.cksum)
    (hn : d'.ICMP_DATA_SIZE = d.ICMP_DATA_SIZE)
    (hl : d'.longest_prefix_match sr ip_dest = d.longest_prefix_match sr ip_dest) :
    sr_send_icmp3 d' sr type code ip_source ip_dest data len =
      sr_send_icmp3 d sr type code ip_source ip_dest data len := by
  unfold sr_send_icmp3 icmp3_msg
  cases read_bytes data 0 len with
  | error e => rfl
  | ok copied =>
    simp only
    rw [sr_send_ip_congr d d' sr _ _ _ _ _ hc hl, hc, hn]

/-! ## The branches of `sr_handle_ip_packet` and `sr_handle_my_ip_packet` -/

theorem frame_ip_hl_eq (packet : List Nat) : frame_ip_hl packet = ip_hl (packet.drop 14) := by
  simp [frame_ip_hl, ip_hl, byte_at_drop]

theorem frame_ip_src_eq (packet : List Nat) : frame_ip_src packet = ip_src (packet.drop 14) := by
  simp [frame_ip_src, ip_src, be32_at_drop]

theorem frame_ip_dst_eq (packet : List Nat) : frame_ip_dst packet = ip_dst (packet.drop 14) := by
  simp [frame_ip_dst, ip_dst, be32_at_drop]

theorem frame_ip_p_eq (packet : List Nat) : frame_ip_p packet = ip_p (packet.drop 14) := by
  simp [frame_ip_p, ip_p, byte_at_drop]

/-- A frame addressed to an interface of the router is handled by
`sr_handle_my_ip_packet` and nothing else. -/
theorem local_delivery_eq (d : Deps) (sr : sr_instance) (packet : List Nat)
    (interface : String) (iface : sr_if)
    (hlen : sizeof_ip_hdr + sizeof_ethernet_hdr ≤ packet.length)
    (hdst : sr_check_packet sr (frame_ip_dst packet) = some iface) :
    sr_handle_ip_packet d sr packet interface =
      (sr_handle_my_ip_packet d sr (packet.drop sizeof_ethernet_hdr)).map
        (fun calls => (packet, calls)) := by
  have h34 : 34 ≤ packet.length := hlen
  have hn : ¬ packet.length < 20 + 14 := by omega
  have e0 : rd8 (packet.drop 14) 0 = .ok (byte_at packet 14) := rd8_drop_ok _ _ _ (by omega)
  have e1 : rd32 (packet.drop 14) 16 = .ok (frame_ip_dst packet) := rd32_drop_ok _ _ _ (by omega)
  simp only [sr_handle_ip_packet, hn, if_false, e0, e1, hdst, bind, Except.bind, pure,
    Except.pure]
  cases sr_handle_my_ip_packet d sr (List.drop 14 packet) <;> rfl

/-- The read that `cksum(ip_hdr, ip_hdr_l)` makes is in bounds when the header
that the frame declares lies within the frame. -/
theorem cksum_read_ok (packet : List Nat)
    (hhdr : sizeof_ethernet_hdr + frame_ip_hl packet * 4 ≤ packet.length) :
    read_bytes
        ((write_bytes (write_bytes packet 22 [(frame_ip_ttl packet + 255) % 256]) 24
          [0, 0]).drop 14) 0 (byte_at packet 14 % 16 * 4) =
      .ok (((write_bytes (write_bytes packet 22 [(frame_ip_ttl packet + 255) % 256]) 24
          [0, 0]).drop 14).take (byte_at packet 14 % 16 * 4)) := by
  have hb : 14 + frame_ip_hl packet * 4 ≤ packet.length := hhdr
  rw [read_bytes_ok]
  · simp
  · simp
    unfold frame_ip_hl at hb
    omega

/-- The TTL and checksum update followed by forwarding. -/
theorem forward_eq (d : Deps) (sr : sr_instance) (packet : List Nat) (interface : String)
    (route : sr_rt) (node : sr_if)
    (hlen : sizeof_ip_hdr + sizeof_ethernet_hdr ≤ packet.length)
    (hdst : sr_check_packet sr (frame_ip_dst packet) = none)
    (httl : frame_ip_ttl packet ≠ 1)
    (hhdr : sizeof_ethernet_hdr + frame_ip_hl packet * 4 ≤ packet.length)
    (hroute : d.longest_prefix_match sr (frame_ip_dst packet) = some route)
    (hnode : sr_get_interface sr route.interface = some node) :
    sr_handle_ip_packet d sr packet interface =
      .ok (buffer_new_sum d packet,
        [Event.attempt_send route.gw
          (write_bytes (buffer_new_sum d packet) 6 (ether_addr node.addr)) route.interface]) := by
  have h34 : 34 ≤ packet.length := hlen
  have hn : ¬ packet.length < 20 + 14 := by omega
  have e0 : rd8 (packet.drop 14) 0 = .ok (byte_at packet 14) := rd8_drop_ok _ _ _ (by omega)
  have e1 : rd32 (packet.drop 14) 16 = .ok (frame_ip_dst packet) := rd32_drop_ok _ _ _ (by omega)
  have e2 : rd8 (packet.drop 14) 8 = .ok (frame_ip_ttl packet) := rd8_drop_ok _ _ _ (by omega)
  have hlt := byte_at_lt packet 22
  have e3 : ¬ (frame_ip_ttl packet + 255) % 256 = 0 := by
    unfold frame_ip_ttl at httl ⊢
    omega
  have e4 := cksum_read_ok packet hhdr
  simp only [sr_handle_ip_packet, hn, if_false, e0, e1, e2, e3, e4, hdst, hroute, hnode, bind,
    Except.bind]
  rfl

/-- The frame ends before the header it declares: `cksum(ip_hdr, ip_hdr_l)`
reads past the frame. -/
theorem forward_over_read_eq (d : Deps) (sr : sr_instance) (packet : List Nat)
    (interface : String)
    (hlen : sizeof_ip_hdr + sizeof_ethernet_hdr ≤ packet.length)
    (hdst : sr_check_packet sr (frame_ip_dst packet) = none)
    (httl : frame_ip_ttl packet ≠ 1)
    (hhdr : ¬ sizeof_ethernet_hdr + frame_ip_hl packet * 4 ≤ packet.length) :
    sr_handle_ip_packet d sr packet interface = .error .oob_read := by
  have h34 : 34 ≤ packet.length := hlen
  have hn : ¬ packet.length < 20 + 14 := by omega
  have hb : ¬ 14 + frame_ip_hl packet * 4 ≤ packet.length := hhdr
  have e0 : rd8 (packet.drop 14) 0 = .ok (byte_at packet 14) := rd8_drop_ok _ _ _ (by omega)
  have e1 : rd32 (packet.drop 14) 16 = .ok (frame_ip_dst packet) := rd32_drop_ok _ _ _ (by omega)
  have e2 : rd8 (packet.drop 14) 8 = .ok (frame_ip_ttl packet) := rd8_drop_ok _ _ _ (by omega)
  have hlt := byte_at_lt packet 22
  have e3 : ¬ (frame_ip_ttl packet + 255) % 256 = 0 := by
    unfold frame_ip_ttl at httl ⊢
    omega
  have e4 : read_bytes
      ((write_bytes (write_bytes packet 22 [(frame_ip_ttl packet + 255) % 256]) 24
        [0, 0]).drop 14) 0 (byte_at packet 14 % 16 * 4) = .error .oob_read := by
    apply read_bytes_error
    simp
    unfold frame_ip_hl at hb
    omega
  simp only [sr_handle_ip_packet, hn, if_false, e0, e1, e2, e3, e4, hdst, bind, Except.bind]

/-- The route names an interface that is not in the interface table:
`node->addr` dereferences `NULL`. -/
theorem forward_null_eq (d : Deps) (sr : sr_instance) (packet : List Nat) (interface : String)
    (route : sr_rt)
    (hlen : sizeof_ip_hdr + sizeof_ethernet_hdr ≤ packet.length)
    (hdst : sr_check_packet sr (frame_ip_dst packet) = none)
    (httl : frame_ip_ttl packet ≠ 1)
    (hhdr : sizeof_ethernet_hdr + frame_ip_hl packet * 4 ≤ packet.length)
    (hroute : d.longest_prefix_match sr (frame_ip_dst packet) = some route)
    (hnode : sr_get_interface sr route.interface = none) :
    sr_handle_ip_packet d sr packet interface = .error .null_deref := by
  have h34 : 34 ≤ packet.length := hlen
  have hn : ¬ packet.length < 20 + 14 := by omega
  have e0 : rd8 (packet.drop 14) 0 = .ok (byte_at packet 14) := rd8_drop_ok _ _ _ (by omega)
  have e1 : rd32 (packet.drop 14) 16 = .ok (frame_ip_dst packet) := rd32_drop_ok _ _ _ (by omega)
  have e2 : rd8 (packet.drop 14) 8 = .ok (frame_ip_ttl packet) := rd8_drop_ok _ _ _ (by omega)
  have hlt := byte_at_lt packet 22
  have e3 : ¬ (frame_ip_ttl packet + 255) % 256 = 0 := by
    unfold frame_ip_ttl at httl ⊢
    omega
  have e4 := cksum_read_ok packet hhdr
  simp only [sr_handle_ip_packet, hn, if_false, e0, e1, e2, e3, e4, hdst, hroute, hnode, bind,
    Except.bind]

/-- The TTL check that fails: one call of `sr_send_icmp`. -/
theorem ttl_expired_eq (d : Deps) (sr : sr_instance) (packet : List Nat) (interface : String)
    (iface : sr_if)
    (hlen : sizeof_ip_hdr + sizeof_ethernet_hdr ≤ packet.length)
    (hdst : sr_check_packet sr (frame_ip_dst packet) = none)
    (httl : frame_ip_ttl packet = 1)
    (hbound : sizeof_ethernet_hdr + frame_ip_hl packet * 4 + 8 ≤ packet.length)
    (hif : sr_get_interface sr interface = some iface) :
    sr_handle_ip_packet d sr packet interface =
      (sr_send_ip d sr ip_protocol_icmp iface.ip (frame_ip_src packet)
        (time_exceeded_msg d packet) (time_exceeded_msg d packet).length).map
          (fun calls => (packet, calls)) := by
  have h34 : 34 ≤ packet.length := hlen
  have hn : ¬ packet.length < 20 + 14 := by omega
  have hb : 14 + frame_ip_hl packet * 4 + 8 ≤ packet.length := hbound
  have e0 : rd8 (packet.drop 14) 0 = .ok (byte_at packet 14) := rd8_drop_ok _ _ _ (by omega)
  have e1 : rd32 (packet.drop 14) 16 = .ok (frame_ip_dst packet) := rd32_drop_ok _ _ _ (by omega)
  have e2 : rd8 (packet.drop 14) 8 = .ok 1 := by
    rw [rd8_drop_ok _ _ _ (by omega)]
    exact congrArg _ httl
  have e3 : rd32 (packet.drop 14) 12 = .ok (frame_ip_src packet) := rd32_drop_ok _ _ _ (by omega)
  have e4 : read_bytes (packet.drop 14) 0 (byte_at packet 14 % 16 * 4 + 8) =
      .ok ((packet.drop 14).take (frame_ip_hl packet * 4 + 8)) := by
    rw [read_bytes_ok]
    · simp [frame_ip_hl]
    · simp
      unfold frame_ip_hl at hb
      omega
  have e5 : sr_send_icmp d sr icmp_ttl icmp_ttl_code iface.ip (frame_ip_src packet)
      (List.replicate 4 0 ++ (packet.drop 14).take (frame_ip_hl packet * 4 + 8))
      (4 + byte_at packet 14 % 16 * 4 + 8) =
      sr_send_ip d sr ip_protocol_icmp iface.ip (frame_ip_src packet)
        (time_exceeded_msg d packet) (time_exceeded_msg d packet).length := by
    have hl : (List.replicate 4 0 ++ (packet.drop 14).take (frame_ip_hl packet * 4 + 8)).length
        = 4 + byte_at packet 14 % 16 * 4 + 8 := by
      simp
      unfold frame_ip_hl at hb ⊢
      omega
    rw [sr_send_icmp_ok _ _ _ _ _ _ _ _ (by omega), ← hl, List.take_length]
    rfl
  have e6 : ((1 + 255) % 256 = 0) = True := by simp
  simp only [sr_handle_ip_packet, hn, if_false, e0, e1, e2, e3, e4, hdst, hif, bind,
    Except.bind, pure, Except.pure, e6, if_true, e5]
  cases sr_send_ip d sr ip_protocol_icmp iface.ip (frame_ip_src packet)
    (time_exceeded_msg d packet) (time_exceeded_msg d packet).length <;> rfl

/-- No route for the destination: one call of `sr_send_icmp3`, after the TTL
and checksum update. -/
theorem net_unreach_eq (d : Deps) (sr : sr_instance) (packet : List Nat) (interface : String)
    (ifback : sr_if)
    (hlen : sizeof_ip_hdr + sizeof_ethernet_hdr ≤ packet.length)
    (hdst : sr_check_packet sr (frame_ip_dst packet) = none)
    (httl : frame_ip_ttl packet ≠ 1)
    (hroute : d.longest_prefix_match sr (frame_ip_dst packet) = none)
    (hbound : sizeof_ethernet_hdr + frame_ip_hl packet * 4 + 8 ≤ packet.length)
    (hfit : frame_ip_hl packet * 4 + 8 ≤ d.ICMP_DATA_SIZE)
    (hif : sr_get_interface sr interface = some ifback) :
    sr_handle_ip_packet d sr packet interface =
      (sr_send_ip d sr ip_protocol_icmp ifback.ip (frame_ip_src packet)
        (net_unreach_msg d packet) (net_unreach_msg d packet).length).map
          (fun calls => (buffer_new_sum d packet, calls)) := by
  have h34 : 34 ≤ packet.length := hlen
  have hn : ¬ packet.length < 20 + 14 := by omega
  have hb : 14 + frame_ip_hl packet * 4 + 8 ≤ packet.length := hbound
  have e0 : rd8 (packet.drop 14) 0 = .ok (byte_at packet 14) := rd8_drop_ok _ _ _ (by omega)
  have e1 : rd32 (packet.drop 14) 16 = .ok (frame_ip_dst packet) := rd32_drop_ok _ _ _ (by omega)
  have e2 : rd8 (packet.drop 14) 8 = .ok (frame_ip_ttl packet) := rd8_drop_ok _ _ _ (by omega)
  have hlt := byte_at_lt packet 22
  have e3 : ¬ (frame_ip_ttl packet + 255) % 256 = 0 := by
    unfold frame_ip_ttl at httl ⊢
    omega
  have e5 : rd32 ((buffer_new_sum d packet).drop 14) 12 = .ok (frame_ip_src packet) := by
    rw [rd32_drop_ok _ _ _ (by simp; omega)]
    exact congrArg _ (frame_ip_src_buffer_new_sum d packet h34)
  have e6 : sr_send_icmp3 d sr icmp_unreach icmp_network_unreach ifback.ip (frame_ip_src packet)
      ((buffer_new_sum d packet).drop 14) (byte_at packet 14 % 16 * 4 + 8) =
      sr_send_ip d sr ip_protocol_icmp ifback.ip (frame_ip_src packet)
        (net_unreach_msg d packet) (net_unreach_msg d packet).length := by
    rw [sr_send_icmp3_ok]
    · rfl
    · simp
      unfold frame_ip_hl at hb
      omega
    · exact hfit
  have e4 := cksum_read_ok packet (by omega)
  have hfold : write_bytes (write_bytes packet 22 [(frame_ip_ttl packet + 255) % 256]) 24 [0, 0]
      = buffer_zero_sum packet := rfl
  have hfold2 : write_bytes (buffer_zero_sum packet) 24
      (bytes16 (d.cksum ((buffer_zero_sum packet).drop 14) (byte_at packet 14 % 16 * 4)))
      = buffer_new_sum d packet := rfl
  rw [hfold] at e4
  simp only [sr_handle_ip_packet, hn, if_false, e0, e1, e2, e3, e4, hdst, hroute, hif, bind,
    Except.bind, pure, Except.pure, hfold, hfold2, e5, e6]
  cases sr_send_ip d sr ip_protocol_icmp ifback.ip (frame_ip_src packet)
    (net_unreach_msg d packet) (net_unreach_msg d packet).length <;> rfl

/-- An echo request in bounds: one call of `sr_send_icmp`. -/
theorem echo_eq (d : Deps) (sr : sr_instance) (ip_hdr : List Nat)
    (hhdr : sizeof_ip_hdr ≤ ip_hdr.length)
    (hp : ip_p ip_hdr = ip_protocol_icmp)
    (htype : byte_at ip_hdr (ip_hl ip_hdr * 4) = icmp_echo_request)
    (hlo : ip_hl ip_hdr * 4 + sizeof_icmp_hdr ≤ ip_len ip_hdr)
    (hhi : ip_len ip_hdr ≤ ip_hdr.length) :
    sr_handle_my_ip_packet d sr ip_hdr =
      sr_send_ip d sr ip_protocol_icmp (ip_dst ip_hdr) (ip_src ip_hdr)
        (echo_reply_msg d ip_hdr) (echo_reply_msg d ip_hdr).length := by
  have h20 : 20 ≤ ip_hdr.length := hhdr
  have hlo' : ip_hl ip_hdr * 4 + 4 ≤ ip_len ip_hdr := hlo
  have hl16 := be16_at_lt ip_hdr 2
  have e0 : rd8 ip_hdr 0 = .ok (byte_at ip_hdr 0) := rd8_ok _ _ (by omega)
  have e1 : rd8 ip_hdr 9 = .ok (ip_p ip_hdr) := rd8_ok _ _ (by omega)
  have e2 : rd16 ip_hdr 2 = .ok (ip_len ip_hdr) := rd16_ok _ _ (by omega)
  have e3 : rd8 ip_hdr (byte_at ip_hdr 0 % 16 * 4) = .ok (byte_at ip_hdr (ip_hl ip_hdr * 4)) :=
    rd8_ok _ _ (by unfold ip_hl at hlo'; omega)
  have e4 : rd32 ip_hdr 16 = .ok (ip_dst ip_hdr) := rd32_ok _ _ (by omega)
  have e5 : rd32 ip_hdr 12 = .ok (ip_src ip_hdr) := rd32_ok _ _ (by omega)
  have e6 : (ip_len ip_hdr + 4294967296 - byte_at ip_hdr 0 % 16 * 4 - 4) % 4294967296
      = ip_len ip_hdr - ip_hl ip_hdr * 4 - 4 := by
    unfold ip_len ip_hl at *
    omega
  have e7 : sr_send_icmp d sr icmp_echo_reply icmp_echo_reply_code (ip_dst ip_hdr) (ip_src ip_hdr)
      (ip_hdr.drop (byte_at ip_hdr 0 % 16 * 4 + 4)) (ip_len ip_hdr - ip_hl ip_hdr * 4 - 4) =
      sr_send_ip d sr ip_protocol_icmp (ip_dst ip_hdr) (ip_src ip_hdr)
        (echo_reply_msg d ip_hdr) (echo_reply_msg d ip_hdr).length := by
    rw [sr_send_icmp_ok]
    · rfl
    · simp
      unfold ip_hl at hlo'
      omega
  simp only [sr_handle_my_ip_packet, e0, e1, e2, e3, e4, e5, e6, hp, htype, bind, Except.bind,
    if_true, e7]

/-- A packet of another protocol in bounds: one call of `sr_send_icmp3`. -/
theorem port_unreach_eq (d : Deps) (sr : sr_instance) (ip_hdr : List Nat)
    (hhdr : sizeof_ip_hdr ≤ ip_hdr.length)
    (hp : ip_p ip_hdr ≠ ip_protocol_icmp)
    (hread : ip_hl ip_hdr * 4 + 8 ≤ ip_hdr.length)
    (hfit : ip_hl ip_hdr * 4 + 8 ≤ d.ICMP_DATA_SIZE) :
    sr_handle_my_ip_packet d sr ip_hdr =
      sr_send_ip d sr ip_protocol_icmp (ip_dst ip_hdr) (ip_src ip_hdr)
        (port_unreach_msg d ip_hdr) (port_unreach_msg d ip_hdr).length := by
  have h20 : 20 ≤ ip_hdr.length := hhdr
  have e0 : rd8 ip_hdr 0 = .ok (byte_at ip_hdr 0) := rd8_ok _ _ (by omega)
  have e1 : rd8 ip_hdr 9 = .ok (ip_p ip_hdr) := rd8_ok _ _ (by omega)
  have e4 : rd32 ip_hdr 16 = .ok (ip_dst ip_hdr) := rd32_ok _ _ (by omega)
  have e5 : rd32 ip_hdr 12 = .ok (ip_src ip_hdr) := rd32_ok _ _ (by omega)
  have e7 := sr_send_icmp3_ok d sr icmp_unreach icmp_port_unreach (ip_dst ip_hdr) (ip_src ip_hdr)
    ip_hdr (ip_hl ip_hdr * 4 + 8) hread hfit
  simp only [sr_handle_my_ip_packet, e0, e1, e4, e5, hp, bind, Except.bind, if_false]
  exact e7

theorem rd8_inv (buf : List Nat) (off v : Nat) (h : rd8 buf off = .ok v) :
    v = byte_at buf off := by
  unfold rd8 at h
  split at h
  · injection h with h
    exact h.symm
  · simp at h

theorem rd32_inv (buf : List Nat) (off v : Nat) (h : rd32 buf off = .ok v) :
    v = be32_at buf off := by
  unfold rd32 at h
  split at h
  · injection h with h
    exact h.symm
  · simp at h

theorem sr_send_icmp_calls (d : Deps) (sr : sr_instance) (type code ip_source ip_dest : Nat)
    (buf : List Nat) (len : Nat) (calls : List Event)
    (h : sr_send_icmp d sr type code ip_source ip_dest buf len = .ok calls) :
    calls = [] ∨ ∃ gw f n, calls = [Event.attempt_send gw f n] ∧ byte_at f 14 = 69 ∧
      frame_ip_p f = ip_protocol_icmp ∧ byte_at f 34 = type % 256 ∧
      byte_at f 35 = code % 256 := by
  by_cases hlen : len ≤ buf.length
  · rw [sr_send_icmp_ok _ _ _ _ _ _ _ _ hlen] at h
    rcases sr_send_ip_calls _ _ _ _ _ _ _ _ h with h0 | ⟨rt, ifn, h1⟩
    · exact Or.inl h0
    · refine Or.inr ⟨_, _, _, h1, ip_frame_version_hl _ _ _ _ _ _ _, ?_, ?_, ?_⟩
      · exact ip_frame_ip_p _ _ _ _ _ _ _
      · rw [show (34 : Nat) = 34 + 0 from rfl, ip_frame_payload_byte, List.take_length]
        simp [icmp_msg, byte_at_cons_zero]
      · rw [show (35 : Nat) = 34 + 1 from rfl, ip_frame_payload_byte, List.take_length]
        simp [icmp_msg, byte_at_cons_succ, byte_at_cons_zero]
  · unfold sr_send_icmp at h
    rw [read_bytes_error _ _ _ (by omega)] at h
    simp at h

theorem sr_send_icmp3_calls (d : Deps) (sr : sr_instance) (type code ip_source ip_dest : Nat)
    (data : List Nat) (len : Nat) (calls : List Event)
    (h : sr_send_icmp3 d sr type code ip_source ip_dest data len = .ok calls) :
    calls = [] ∨ ∃ gw f n, calls = [Event.attempt_send gw f n] ∧ byte_at f 14 = 69 ∧
      frame_ip_p f = ip_protocol_icmp ∧ byte_at f 34 = type % 256 ∧
      byte_at f 35 = code % 256 := by
  by_cases hlen : len ≤ data.length
  · by_cases hfit : len ≤ d.ICMP_DATA_SIZE
    · rw [sr_send_icmp3_ok _ _ _ _ _ _ _ _ hlen hfit] at h
      rcases sr_send_ip_calls _ _ _ _ _ _ _ _ h with h0 | ⟨rt, ifn, h1⟩
      · exact Or.inl h0
      · refine Or.inr ⟨_, _, _, h1, ip_frame_version_hl _ _ _ _ _ _ _, ?_, ?_, ?_⟩
        · exact ip_frame_ip_p _ _ _ _ _ _ _
        · rw [show (34 : Nat) = 34 + 0 from rfl, ip_frame_payload_byte, List.take_length]
          simp [icmp3_msg, byte_at_cons_zero]
        · rw [show (35 : Nat) = 34 + 1 from rfl, ip_frame_payload_byte, List.take_length]
          simp [icmp3_msg, byte_at_cons_succ, byte_at_cons_zero]
    · unfold sr_send_icmp3 at h
      rw [read_bytes_take _ _ hlen] at h
      have : d.ICMP_DATA_SIZE < len := by omega
      simp [this] at h
  · unfold sr_send_icmp3 at h
    rw [read_bytes_error _ _ _ (by omega)] at h
    simp at h

/-- Every call that local delivery makes hands a fresh frame built by
`sr_send_ip` to `sr_attempt_send`: an echo reply to an echo request, or a port
unreachable for a packet that is not ICMP. -/
theorem sr_handle_my_ip_packet_calls (d : Deps) (sr : sr_instance) (ip_hdr : List Nat)
    (calls : List Event) (h : sr_handle_my_ip_packet d sr ip_hdr = .ok calls) :
    calls = [] ∨ ∃ gw f n, calls = [Event.attempt_send gw f n] ∧ byte_at f 14 = 69 ∧
      frame_ip_p f = ip_protocol_icmp ∧
      ((byte_at f 34 = icmp_echo_reply ∧ byte_at f 35 = icmp_echo_reply_code ∧
          ip_p ip_hdr = ip_protocol_icmp ∧
          byte_at ip_hdr (ip_hl ip_hdr * 4) = icmp_echo_request) ∨
        (byte_at f 34 = icmp_unreach ∧ byte_at f 35 = icmp_port_unreach ∧
          ip_p ip_hdr ≠ ip_protocol_icmp)) := by
  unfold sr_handle_my_ip_packet at h
  simp only [bind, Except.bind, pure, Except.pure] at h
  cases h0 : rd8 ip_hdr 0 with
  | error e => simp [h0] at h
  | ok hl =>
    have hhl := rd8_inv _ _ _ h0
    simp only [h0] at h
    cases h9 : rd8 ip_hdr 9 with
    | error e => simp [h9] at h
    | ok p =>
      have hp := rd8_inv _ _ _ h9
      simp only [h9] at h
      by_cases hicmp : p = ip_protocol_icmp
      · simp only [hicmp, if_true] at h
        cases h2 : rd16 ip_hdr 2 with
        | error e => simp [h2] at h
        | ok l =>
          simp only [h2] at h
          cases ht : rd8 ip_hdr (hl % 16 * 4) with
          | error e => simp [ht] at h
          | ok t =>
            have htv := rd8_inv _ _ _ ht
            simp only [ht] at h
            by_cases hecho : t = icmp_echo_request
            · simp only [hecho, if_true] at h
              cases h16 : rd32 ip_hdr 16 with
              | error e => simp [h16] at h
              | ok dst =>
                simp only [h16] at h
                cases h12 : rd32 ip_hdr 12 with
                | error e => simp [h12] at h
                | ok src =>
                  simp only [h12] at h
                  rcases sr_send_icmp_calls _ _ _ _ _ _ _ _ _ h with h' | ⟨gw, f, n, hc, h14, hpf, h34, h35⟩
                  · exact Or.inl h'
                  · refine Or.inr ⟨gw, f, n, hc, h14, hpf, Or.inl ⟨h34, h35, ?_, ?_⟩⟩
                    · rw [← hicmp, hp]
                      rfl
                    · rw [← hecho, htv, hhl]
                      rfl
            · simp only [hecho, if_false] at h
              injection h with h
              exact Or.inl h.symm
      · simp only [hicmp, if_false] at h
        cases h16 : rd32 ip_hdr 16 with
        | error e => simp [h16] at h
        | ok dst =>
          simp only [h16] at h
          cases h12 : rd32 ip_hdr 12 with
          | error e => simp [h12] at h
          | ok src =>
            simp only [h12] at h
            rcases sr_send_icmp3_calls _ _ _ _ _ _ _ _ _ h with h' | ⟨gw, f, n, hc, h14, hpf, h34, h35⟩
            · exact Or.inl h'
            · refine Or.inr ⟨gw, f, n, hc, h14, hpf, Or.inr ⟨h34, h35, ?_⟩⟩
              intro hpe
              apply hicmp
              rw [hp]
              exact hpe

/-- Local delivery depends on the routing function only through the route of
the source address of the packet. -/
theorem sr_handle_my_ip_packet_congr (d d' : Deps) (sr : sr_instance) (ip_hdr : List Nat)
    (hc : d'.cksum = d.cksum) (hn : d'.ICMP_DATA_SIZE = d.ICMP_DATA_SIZE)
    (hl : d'.longest_prefix_match sr (ip_src ip_hdr) =
      d.longest_prefix_match sr (ip_src ip_hdr)) :
    sr_handle_my_ip_packet d' sr ip_hdr = sr_handle_my_ip_packet d sr ip_hdr := by
  unfold sr_handle_my_ip_packet
  cases h12 : rd32 ip_hdr 12 with
  | error e => simp only [bind, Except.bind]
  | ok src =>
    have hsrc := rd32_inv _ _ _ h12
    have hl' : d'.longest_prefix_match sr src = d.longest_prefix_match sr src := by
      rw [hsrc]
      exact hl
    have k1 : ∀ t c s buf len, sr_send_icmp d' sr t c s src buf len =
        sr_send_icmp d sr t c s src buf len :=
      fun t c s buf len => sr_send_icmp_congr d d' sr t c s src buf len hc hl'
    have k2 : ∀ t c s buf len, sr_send_icmp3 d' sr t c s src buf len =
        sr_send_icmp3 d sr t c s src buf len :=
      fun t c s buf len => sr_send_icmp3_congr d d' sr t c s src buf len hc hn hl'
    simp only [bind, Except.bind, k1, k2]

theorem sr_check_packet_walk_eq_none (l : List sr_if) (ip_dest : Nat)
    (h : ∀ i ∈ l, i.ip ≠ ip_dest) : sr_check_packet_walk l ip_dest = none := by
  induction l with
  | nil => rfl
  | cons a rest ih =>
    have ha : a.ip ≠ ip_dest := h a (List.mem_cons_self _ _)
    simp only [sr_check_packet_walk, ha, if_false]
    exact ih (fun i hi => h i (List.mem_cons_of_mem _ hi))

theorem sr_check_packet_walk_of_mem (l : List sr_if) (ip_dest : Nat) (iface : sr_if)
    (hmem : iface ∈ l) (hip : iface.ip = ip_dest) :
    ∃ found, sr_check_packet_walk l ip_dest = some found := by
  induction l with
  | nil => cases hmem
  | cons a rest ih =>
    by_cases ha : a.ip = ip_dest
    · exact ⟨a, by simp [sr_check_packet_walk, ha]⟩
    · simp only [sr_check_packet_walk, ha, if_false]
      rcases List.mem_cons.mp hmem with h | h
      · exact absurd (h ▸ hip) ha
      · exact ih h

theorem write_bytes_sum_field (a b c e : Nat) (body : List Nat) :
    write_bytes (a :: b :: c :: e :: body) 2 [0, 0] = a :: b :: 0 :: 0 :: body := by
  apply ext_getD
  · simp
  · intro i _
    rw [getD_write_bytes]
    rcases i with _ | _ | _ | _ | i
    · simp
    · simp
    · simp
    · simp
    · by_cases hi : i < body.length
      · simp [hi]
      · have hnone : body[i]? = none := List.getElem?_eq_none (by omega)
        simp [hi, hnone]

theorem header_with_zero_sum (d : Deps) (packet mac : List Nat) (hmac : mac.length = 6) :
    (write_bytes (write_bytes (buffer_new_sum d packet) 6 mac) 24 [0, 0]).drop 14 =
      (buffer_zero_sum packet).drop 14 := by
  apply drop_congr_getD
  · simp
  · intro i hi
    simp only [buffer_new_sum, buffer_zero_sum, getD_write_bytes, length_write_bytes, hmac,
      bytes16, List.length_cons, List.length_nil]
    split_ifs <;> first | rfl | omega

/-! ## The claims -/

/-- C1, as amended: for every IP frame of at least 34 bytes whose TTL is 1 on
arrival, whose destination IP equals no interface IP, whose `ip_hl*4 + 8` bytes
from the IP header on lie within the frame and whose receiving interface is in
the interface table, `sr_handle_ip_packet` leaves the frame untouched and makes
one call of `sr_send_icmp`; when `longest_prefix_match` finds a route for the
frame's IP source and the route's interface is known, exactly one frame is
handed to `sr_attempt_send`, an ICMP time-exceeded (type 11, code 0) whose IP
destination is the frame's IP source, and otherwise nothing is transmitted. -/
theorem sr_handle_ip_packet_ttl_expired (d : Deps) (sr : sr_instance) (packet : List Nat)
    (interface : String) (iface : sr_if)
    (hlen : sizeof_ip_hdr + sizeof_ethernet_hdr ≤ packet.length)
    (hdst : ∀ i ∈ sr.if_list, i.ip ≠ frame_ip_dst packet)
    (httl : frame_ip_ttl packet = 1)
    (hbound : sizeof_ethernet_hdr + frame_ip_hl packet * 4 + 8 ≤ packet.length)
    (hif : sr_get_interface sr interface = some iface) :
    (∀ (rt : sr_rt) (ifn : sr_if),
      d.longest_prefix_match sr (frame_ip_src packet) = some rt →
      sr_get_interface sr rt.interface = some ifn →
      ∃ f, sr_handle_ip_packet d sr packet interface =
          .ok (packet, [Event.attempt_send rt.gw f ifn.name]) ∧
        frame_ethertype f = ethertype_ip ∧ frame_ip_p f = ip_protocol_icmp ∧
        frame_ip_dst f = frame_ip_src packet ∧
        byte_at f 34 = icmp_ttl ∧ byte_at f 35 = icmp_ttl_code) ∧
    ((d.longest_prefix_match sr (frame_ip_src packet) = none ∨
        ∃ rt, d.longest_prefix_match sr (frame_ip_src packet) = some rt ∧
          sr_get_interface sr rt.interface = none) →
      sr_handle_ip_packet d sr packet interface = .ok (packet, [])) := by
  have heq := ttl_expired_eq d sr packet interface iface hlen
    (sr_check_packet_walk_eq_none _ _ hdst) httl hbound hif
  refine ⟨?_, ?_⟩
  · intro rt ifn hrt hifn
    refine ⟨ip_frame d ifn ip_protocol_icmp iface.ip (frame_ip_src packet)
      (time_exceeded_msg d packet) (time_exceeded_msg d packet).length, ?_,
      ip_frame_ethertype _ _ _ _ _ _ _, ip_frame_ip_p _ _ _ _ _ _ _, ?_, ?_, ?_⟩
    · rw [heq, sr_send_ip_routed d sr _ _ _ _ _ rt ifn rfl hrt hifn]
      rfl
    · rw [ip_frame_ip_dst]
      exact Nat.mod_eq_of_lt (be32_at_lt _ _)
    · rw [show (34 : Nat) = 34 + 0 from rfl, ip_frame_payload_byte]
      rfl
    · rw [show (35 : Nat) = 34 + 1 from rfl, ip_frame_payload_byte]
      rfl
  · intro h
    rw [heq, sr_send_ip_unrouted d sr _ _ _ _ _ h]
    rfl

/-- A UDP datagram in transit with TTL 1 whose source is on `eth0`: one
time-exceeded frame goes back through the route of the source. -/
theorem sr_handle_ip_packet_ttl_expired_witness :
    ∃ f, sr_handle_ip_packet sample_deps sample_sr sample_transit_ttl1 "eth0" =
        .ok (sample_transit_ttl1, [Event.attempt_send sample_rt0.gw f sample_eth0.name]) ∧
      frame_ethertype f = ethertype_ip ∧ frame_ip_p f = ip_protocol_icmp ∧
      frame_ip_dst f = frame_ip_src sample_transit_ttl1 ∧
      byte_at f 34 = icmp_ttl ∧ byte_at f 35 = icmp_ttl_code :=
  (sr_handle_ip_packet_ttl_expired sample_deps sample_sr sample_transit_ttl1 "eth0" sample_eth0
    (by decide) (by decide) (by decide) (by decide) (by decide)).1 sample_rt0 sample_eth0
    (by decide) (by decide)

/-- C1 as stated fails: an echo request with TTL 1 addressed to the router is
answered with an echo reply, not with a time-exceeded; a frame with TTL 1 from
a source for which there is no route causes no transmission; a frame of 34
bytes with TTL 1 makes the copy of `ip_hl*4 + 8` bytes read past its end. -/
theorem ttl_one_not_always_time_exceeded :
    (sizeof_ip_hdr + sizeof_ethernet_hdr ≤ sample_ping_ttl1.length ∧
      frame_ip_ttl sample_ping_ttl1 = 1 ∧
      sr_handle_ip_packet sample_deps sample_sr sample_ping_ttl1 "eth0" =
        .ok (sample_ping_ttl1, [Event.attempt_send 0x0A000102
          [0, 0, 0, 0, 0, 0, 2, 0, 0, 0, 0, 1, 8, 0,
           69, 0, 0, 32, 0, 0, 64, 0, 64, 1, 36, 214, 10, 0, 1, 1, 10, 0, 1, 7,
           0, 0, 243, 239, 0, 1, 0, 1, 5, 6, 7, 8] "eth0"])) ∧
    (sizeof_ip_hdr + sizeof_ethernet_hdr ≤ sample_transit_ttl1_far.length ∧
      frame_ip_ttl sample_transit_ttl1_far = 1 ∧
      sr_handle_ip_packet sample_deps sample_sr sample_transit_ttl1_far "eth0" =
        .ok (sample_transit_ttl1_far, [])) ∧
    (sizeof_ip_hdr + sizeof_ethernet_hdr ≤ sample_bare_ttl1.length ∧
      frame_ip_ttl sample_bare_ttl1 = 1 ∧
      sr_handle_ip_packet sample_deps sample_sr sample_bare_ttl1 "eth0" =
        .error .oob_read) := by
  refine ⟨⟨by decide, by decide, ?_⟩, ⟨by decide, by decide, ?_⟩, ⟨by decide, by decide, ?_⟩⟩ <;>
    rfl

/-- C2, as amended: for every IP frame of at least 34 bytes whose destination
IP equals no interface IP and has no matching route, whose TTL on arrival is
not 1, whose `ip_hl*4 + 8` bytes from the IP header on lie within the frame and
fit the `data` array of the type-3 message, and whose receiving interface is in
the interface table, `sr_handle_ip_packet` makes one call of `sr_send_icmp3`;
when `longest_prefix_match` finds a route for the frame's IP source and the
route's interface is known, exactly one frame is handed to `sr_attempt_send`, an
ICMP network-unreachable (type 3, code network-unreachable) whose IP
destination is the frame's IP source, and otherwise nothing is transmitted. -/
theorem sr_handle_ip_packet_no_route (d : Deps) (sr : sr_instance) (packet : List Nat)
    (interface : String) (ifback : sr_if)
    (hlen : sizeof_ip_hdr + sizeof_ethernet_hdr ≤ packet.length)
    (hdst : ∀ i ∈ sr.if_list, i.ip ≠ frame_ip_dst packet)
    (httl : frame_ip_ttl packet ≠ 1)
    (hroute : d.longest_prefix_match sr (frame_ip_dst packet) = none)
    (hbound : sizeof_ethernet_hdr + frame_ip_hl packet * 4 + 8 ≤ packet.length)
    (hfit : frame_ip_hl packet * 4 + 8 ≤ d.ICMP_DATA_SIZE)
    (hif : sr_get_interface sr interface = some ifback) :
    (∀ (rt : sr_rt) (ifn : sr_if),
      d.longest_prefix_match sr (frame_ip_src packet) = some rt →
      sr_get_interface sr rt.interface = some ifn →
      ∃ buf f, sr_handle_ip_packet d sr packet interface =
          .ok (buf, [Event.attempt_send rt.gw f ifn.name]) ∧
        frame_ethertype f = ethertype_ip ∧ frame_ip_p f = ip_protocol_icmp ∧
        frame_ip_dst f = frame_ip_src packet ∧
        byte_at f 34 = icmp_unreach ∧ byte_at f 35 = icmp_network_unreach) ∧
    ((d.longest_prefix_match sr (frame_ip_src packet) = none ∨
        ∃ rt, d.longest_prefix_match sr (frame_ip_src packet) = some rt ∧
          sr_get_interface sr rt.interface = none) →
      ∃ buf, sr_handle_ip_packet d sr packet interface = .ok (buf, [])) := by
  have heq := net_unreach_eq d sr packet interface ifback hlen
    (sr_check_packet_walk_eq_none _ _ hdst) httl hroute hbound hfit hif
  refine ⟨?_, ?_⟩
  · intro rt ifn hrt hifn
    refine ⟨buffer_new_sum d packet,
      ip_frame d ifn ip_protocol_icmp ifback.ip (frame_ip_src packet)
        (net_unreach_msg d packet) (net_unreach_msg d packet).length, ?_,
      ip_frame_ethertype _ _ _ _ _ _ _, ip_frame_ip_p _ _ _ _ _ _ _, ?_, ?_, ?_⟩
    · rw [heq, sr_send_ip_routed d sr _ _ _ _ _ rt ifn rfl hrt hifn]
      rfl
    · rw [ip_frame_ip_dst]
      exact Nat.mod_eq_of_lt (be32_at_lt _ _)
    · rw [show (34 : Nat) = 34 + 0 from rfl, ip_frame_payload_byte]
      rfl
    · rw [show (35 : Nat) = 34 + 1 from rfl, ip_frame_payload_byte]
      rfl
  · intro h
    refine ⟨buffer_new_sum d packet, ?_⟩
    rw [heq, sr_send_ip_unrouted d sr _ _ _ _ _ h]
    rfl

/-- A UDP datagram for 172.16.0.5, for which the sample router has no route:
one network-unreachable frame goes back through the route of the source. -/
theorem sr_handle_ip_packet_no_route_witness :
    ∃ buf f, sr_handle_ip_packet sample_deps sample_sr sample_unrouted "eth0" =
        .ok (buf, [Event.attempt_send sample_rt0.gw f sample_eth0.name]) ∧
      frame_ethertype f = ethertype_ip ∧ frame_ip_p f = ip_protocol_icmp ∧
      frame_ip_dst f = frame_ip_src sample_unrouted ∧
      byte_at f 34 = icmp_unreach ∧ byte_at f 35 = icmp_network_unreach :=
  (sr_handle_ip_packet_no_route sample_deps sample_sr sample_unrouted "eth0" sample_eth0
    (by decide) (by decide) (by decide) (by decide) (by decide) (by decide) (by decide)).1
    sample_rt0 sample_eth0 (by decide) (by decide)

/-- C2 as stated fails: a frame with TTL 1 for an unrouted destination is
answered with a time-exceeded (type 11), not with a network-unreachable; a
frame for an unrouted destination from a source that has no route either causes
no transmission; a frame of 34 bytes makes the copy of `ip_hl*4 + 8` bytes read
past its end. -/
theorem no_route_not_always_net_unreachable :
    (sizeof_ip_hdr + sizeof_ethernet_hdr ≤ sample_unrouted_ttl1.length ∧
      sample_deps.longest_prefix_match sample_sr (frame_ip_dst sample_unrouted_ttl1) = none ∧
      sr_handle_ip_packet sample_deps sample_sr sample_unrouted_ttl1 "eth0" =
        .ok (sample_unrouted_ttl1, [Event.attempt_send 0x0A000102
          [0, 0, 0, 0, 0, 0, 2, 0, 0, 0, 0, 1, 8, 0,
           69, 0, 0, 56, 0, 0, 64, 0, 64, 1, 36, 190, 10, 0, 1, 1, 10, 0, 1, 7,
           11, 0, 196, 133, 0, 0, 0, 0,
           69, 0, 0, 32, 0, 0, 0, 0, 1, 17, 2, 178, 10, 0, 1, 7, 172, 16, 0, 5,
           48, 57, 0, 53, 0, 12, 0, 0] "eth0"])) ∧
    (sizeof_ip_hdr + sizeof_ethernet_hdr ≤ sample_unrouted_far.length ∧
      sample_deps.longest_prefix_match sample_sr (frame_ip_dst sample_unrouted_far) = none ∧
      sr_handle_ip_packet sample_deps sample_sr sample_unrouted_far "eth0" =
        .ok ([2, 0, 0, 0, 0, 1, 2, 0, 0, 0, 0, 7, 8, 0,
              69, 0, 0, 32, 0, 0, 0, 0, 63, 17, 26, 159, 172, 16, 0, 5, 172, 16, 9, 9,
              48, 57, 0, 53, 0, 12, 0, 0, 1, 2, 3, 4], [])) ∧
    (sizeof_ip_hdr + sizeof_ethernet_hdr ≤ sample_bare_unrouted.length ∧
      sample_deps.longest_prefix_match sample_sr (frame_ip_dst sample_bare_unrouted) = none ∧
      sr_handle_ip_packet sample_deps sample_sr sample_bare_unrouted "eth0" =
        .error .oob_read) := by
  refine ⟨⟨by decide, by decide, ?_⟩, ⟨by decide, by decide, ?_⟩, ⟨by decide, by decide, ?_⟩⟩ <;>
    rfl

/-- C3, as amended: for every IP frame of at least 34 bytes whose destination
IP equals no interface IP, whose TTL on arrival is at least 2, whose `ip_hl*4`
header bytes lie within the frame, and for which `longest_prefix_match` returns
a route whose interface is in the interface table, `sr_handle_ip_packet` makes
exactly one call, which hands one frame to `sr_attempt_send` with the route's
gateway as next hop and the route's interface as output interface, and sends no
ICMP message.  The frame has the length of the input, the arrival TTL minus 1, a
checksum field equal to `cksum` taken at its IP header over `ip_hl*4` bytes with
the new TTL and a zeroed checksum field, and the MAC of the route's interface as
Ethernet source. -/
theorem sr_handle_ip_packet_forwards (d : Deps) (sr : sr_instance) (packet : List Nat)
    (interface : String) (route : sr_rt) (node : sr_if)
    (hlen : sizeof_ip_hdr + sizeof_ethernet_hdr ≤ packet.length)
    (hdst : ∀ i ∈ sr.if_list, i.ip ≠ frame_ip_dst packet)
    (httl : 2 ≤ frame_ip_ttl packet)
    (hhdr : sizeof_ethernet_hdr + frame_ip_hl packet * 4 ≤ packet.length)
    (hroute : d.longest_prefix_match sr (frame_ip_dst packet) = some route)
    (hnode : sr_get_interface sr route.interface = some node) :
    ∃ buf f,
      sr_handle_ip_packet d sr packet interface =
        .ok (buf, [Event.attempt_send route.gw f route.interface]) ∧
      f.length = packet.length ∧
      frame_ip_ttl f = frame_ip_ttl packet - 1 ∧
      frame_ip_hl f = frame_ip_hl packet ∧
      frame_ip_sum f =
        d.cksum ((write_bytes f 24 [0, 0]).drop sizeof_ethernet_hdr) (frame_ip_hl f * 4) ∧
      frame_shost f = ether_addr node.addr := by
  have h34 : 34 ≤ packet.length := hlen
  have hlt := byte_at_lt packet 22
  have h14 : 14 < packet.length := by omega
  have h22 : 22 < packet.length := by omega
  have hhl : frame_ip_hl (write_bytes (buffer_new_sum d packet) 6 (ether_addr node.addr))
      = frame_ip_hl packet := by
    simp [frame_ip_hl, byte_at_write_bytes, buffer_new_sum, buffer_zero_sum, h14]
  refine ⟨_, _, forward_eq d sr packet interface route node hlen
    (sr_check_packet_walk_eq_none _ _ hdst) (by omega) hhdr hroute hnode, ?_, ?_, hhl, ?_, ?_⟩
  · simp
  · simp [frame_ip_ttl, byte_at_write_bytes, buffer_new_sum, buffer_zero_sum, h22,
      byte_at_cons_zero]
    unfold frame_ip_ttl at httl
    omega
  · rw [hhl]
    have hsum : frame_ip_sum (write_bytes (buffer_new_sum d packet) 6 (ether_addr node.addr))
        = d.cksum ((buffer_zero_sum packet).drop 14) (frame_ip_hl packet * 4) := by
      have := be16_at_bytes16_write (buffer_zero_sum packet) 24
        (d.cksum ((buffer_zero_sum packet).drop 14) (frame_ip_hl packet * 4))
        (by simp; omega) (d.cksum_lt _ _)
      have h24 : 24 < packet.length := by omega
      have h25 : 25 < packet.length := by omega
      simp only [frame_ip_sum, be16_at, byte_at_write_bytes, buffer_new_sum] at this ⊢
      simp [h24, h25] at this ⊢
      exact this
    rw [hsum, header_with_zero_sum d packet _ (length_ether_addr _)]
  · have := take_drop_write_bytes (buffer_new_sum d packet) 6 (ether_addr node.addr)
      (by simp; omega)
    simpa [frame_shost] using this

/-- A UDP datagram for 192.168.2.9 with TTL 64 is forwarded on `eth1`. -/
theorem sr_handle_ip_packet_forwards_witness :
    ∃ buf f,
      sr_handle_ip_packet sample_deps sample_sr sample_transit "eth0" =
        .ok (buf, [Event.attempt_send sample_rt1.gw f sample_rt1.interface]) ∧
      f.length = sample_transit.length ∧
      frame_ip_ttl f = frame_ip_ttl sample_transit - 1 ∧
      frame_ip_hl f = frame_ip_hl sample_transit ∧
      frame_ip_sum f =
        sample_deps.cksum ((write_bytes f 24 [0, 0]).drop sizeof_ethernet_hdr)
          (frame_ip_hl f * 4) ∧
      frame_shost f = ether_addr sample_eth1.addr :=
  sr_handle_ip_packet_forwards sample_deps sample_sr sample_transit "eth0" sample_rt1 sample_eth1
    (by decide) (by decide) (by decide) (by decide) (by decide) (by decide)

/-- C3 as stated fails: a routed frame of 34 bytes with TTL 64 whose header
length field says 15 words makes `cksum(ip_hdr, ip_hdr_l)` read 60 bytes where
20 are left, and a routed frame whose route names an interface that is not in
the interface table makes `node->addr` dereference `NULL`; neither is
forwarded. -/
theorem routed_frame_not_always_forwarded :
    (sizeof_ip_hdr + sizeof_ethernet_hdr ≤ sample_bare_hl15.length ∧
      (∀ i ∈ sample_sr.if_list, i.ip ≠ frame_ip_dst sample_bare_hl15) ∧
      2 ≤ frame_ip_ttl sample_bare_hl15 ∧
      sample_deps.longest_prefix_match sample_sr (frame_ip_dst sample_bare_hl15) =
        some sample_rt1 ∧
      frame_ip_hl sample_bare_hl15 * 4 = 60 ∧
      sr_handle_ip_packet sample_deps sample_sr sample_bare_hl15 "eth0" =
        .error .oob_read) ∧
    (sizeof_ip_hdr + sizeof_ethernet_hdr ≤ sample_transit.length ∧
      (∀ i ∈ sample_sr_eth0_only.if_list, i.ip ≠ frame_ip_dst sample_transit) ∧
      2 ≤ frame_ip_ttl sample_transit ∧
      sample_deps.longest_prefix_match sample_sr_eth0_only (frame_ip_dst sample_transit) =
        some sample_rt1 ∧
      sr_get_interface sample_sr_eth0_only sample_rt1.interface = none ∧
      sr_handle_ip_packet sample_deps sample_sr_eth0_only sample_transit "eth0" =
        .error .null_deref) := by
  refine ⟨⟨by decide, by decide, by decide, by decide, by decide, ?_⟩,
    ⟨by decide, by decide, by decide, by decide, by decide, ?_⟩⟩ <;> rfl

/-- C4, as amended: for every IP packet (at least the 20 header bytes) whose
protocol is ICMP and whose ICMP type is echo-request, and whose total length
field covers the IP and ICMP headers and does not exceed the bytes received
(`ip_hl*4 + 4 ≤ ntohs(ip_len) ≤` length from the IP header on),
`sr_handle_my_ip_packet` issues exactly one ICMP message through `sr_send_ip`:
type echo-reply, code 0, IP source the packet's destination, IP destination the
packet's source, payload equal to the `ntohs(ip_len) - ip_hl*4 - 4` bytes after
the 4-byte ICMP header of the request, checksum field equal to `cksum` over the
whole message with a zero checksum field.  With a route for the source the
message leaves as one frame, and without one nothing is transmitted. -/
theorem sr_handle_my_ip_packet_echo_reply (d : Deps) (sr : sr_instance) (ip_hdr : List Nat)
    (hhdr : sizeof_ip_hdr ≤ ip_hdr.length)
    (hp : ip_p ip_hdr = ip_protocol_icmp)
    (htype : byte_at ip_hdr (ip_hl ip_hdr * 4) = icmp_echo_request)
    (hlo : ip_hl ip_hdr * 4 + sizeof_icmp_hdr ≤ ip_len ip_hdr)
    (hhi : ip_len ip_hdr ≤ ip_hdr.length) :
    ∃ msg,
      sr_handle_my_ip_packet d sr ip_hdr =
        sr_send_ip d sr ip_protocol_icmp (ip_dst ip_hdr) (ip_src ip_hdr) msg msg.length ∧
      byte_at msg 0 = icmp_echo_reply ∧ byte_at msg 1 = icmp_echo_reply_code ∧
      msg.drop sizeof_icmp_hdr =
        (ip_hdr.drop (ip_hl ip_hdr * 4 + sizeof_icmp_hdr)).take
          (ip_len ip_hdr - ip_hl ip_hdr * 4 - sizeof_icmp_hdr) ∧
      be16_at msg 2 = d.cksum (write_bytes msg 2 [0, 0]) msg.length ∧
      (∀ (rt : sr_rt) (ifn : sr_if),
        d.longest_prefix_match sr (ip_src ip_hdr) = some rt →
        sr_get_interface sr rt.interface = some ifn →
        ∃ f, sr_handle_my_ip_packet d sr ip_hdr = .ok [Event.attempt_send rt.gw f ifn.name] ∧
          frame_ip_p f = ip_protocol_icmp ∧ frame_ip_src f = ip_dst ip_hdr ∧
          frame_ip_dst f = ip_src ip_hdr ∧ f.drop 34 = msg) ∧
      ((d.longest_prefix_match sr (ip_src ip_hdr) = none ∨
          ∃ rt, d.longest_prefix_match sr (ip_src ip_hdr) = some rt ∧
            sr_get_interface sr rt.interface = none) →
        sr_handle_my_ip_packet d sr ip_hdr = .ok []) := by
  have heq := echo_eq d sr ip_hdr hhdr hp htype hlo hhi
  refine ⟨echo_reply_msg d ip_hdr, heq, rfl, rfl, rfl, ?_, ?_, ?_⟩
  · have hc := d.cksum_lt ([icmp_echo_reply % 256, icmp_echo_reply_code % 256, 0, 0] ++
      (ip_hdr.drop (ip_hl ip_hdr * 4 + sizeof_icmp_hdr)).take
        (ip_len ip_hdr - ip_hl ip_hdr * 4 - sizeof_icmp_hdr))
      (sizeof_icmp_hdr + ((ip_hdr.drop (ip_hl ip_hdr * 4 + sizeof_icmp_hdr)).take
        (ip_len ip_hdr - ip_hl ip_hdr * 4 - sizeof_icmp_hdr)).length)
    rw [show (echo_reply_msg d ip_hdr).length = sizeof_icmp_hdr +
      ((ip_hdr.drop (ip_hl ip_hdr * 4 + sizeof_icmp_hdr)).take
        (ip_len ip_hdr - ip_hl ip_hdr * 4 - sizeof_icmp_hdr)).length from icmp_msg_length _ _ _ _]
    simp only [echo_reply_msg, icmp_msg, List.cons_append, List.nil_append,
      write_bytes_sum_field] at hc ⊢
    simp only [be16_at, byte_at_cons_succ, byte_at_cons_zero]
    omega
  · intro rt ifn hrt hifn
    refine ⟨ip_frame d ifn ip_protocol_icmp (ip_dst ip_hdr) (ip_src ip_hdr)
      (echo_reply_msg d ip_hdr) (echo_reply_msg d ip_hdr).length, ?_,
      ip_frame_ip_p _ _ _ _ _ _ _, ?_, ?_, ip_frame_drop _ _ _ _ _ _ _⟩
    · rw [heq, sr_send_ip_routed d sr _ _ _ _ _ rt ifn rfl hrt hifn]
    · rw [ip_frame_ip_src]
      exact Nat.mod_eq_of_lt (be32_at_lt _ _)
    · rw [ip_frame_ip_dst]
      exact Nat.mod_eq_of_lt (be32_at_lt _ _)
  · intro h
    rw [heq, sr_send_ip_unrouted d sr _ _ _ _ _ h]

/-- An echo request to the router with 8 bytes of payload. -/
theorem sr_handle_my_ip_packet_echo_reply_witness :
    ∃ msg,
      sr_handle_my_ip_packet sample_deps sample_sr (sample_ping.drop 14) =
        sr_send_ip sample_deps sample_sr ip_protocol_icmp (ip_dst (sample_ping.drop 14))
          (ip_src (sample_ping.drop 14)) msg msg.length ∧
      byte_at msg 0 = icmp_echo_reply ∧ byte_at msg 1 = icmp_echo_reply_code ∧
      msg.drop sizeof_icmp_hdr =
        ((sample_ping.drop 14).drop (ip_hl (sample_ping.drop 14) * 4 + sizeof_icmp_hdr)).take
          (ip_len (sample_ping.drop 14) - ip_hl (sample_ping.drop 14) * 4 - sizeof_icmp_hdr) ∧
      be16_at msg 2 = sample_deps.cksum (write_bytes msg 2 [0, 0]) msg.length ∧
      (∀ (rt : sr_rt) (ifn : sr_if),
        sample_deps.longest_prefix_match sample_sr (ip_src (sample_ping.drop 14)) = some rt →
        sr_get_interface sample_sr rt.interface = some ifn →
        ∃ f, sr_handle_my_ip_packet sample_deps sample_sr (sample_ping.drop 14) =
            .ok [Event.attempt_send rt.gw f ifn.name] ∧
          frame_ip_p f = ip_protocol_icmp ∧ frame_ip_src f = ip_dst (sample_ping.drop 14) ∧
          frame_ip_dst f = ip_src (sample_ping.drop 14) ∧ f.drop 34 = msg) ∧
      ((sample_deps.longest_prefix_match sample_sr (ip_src (sample_ping.drop 14)) = none ∨
          ∃ rt, sample_deps.longest_prefix_match sample_sr (ip_src (sample_ping.drop 14)) =
              some rt ∧ sr_get_interface sample_sr rt.interface = none) →
        sr_handle_my_ip_packet sample_deps sample_sr (sample_ping.drop 14) = .ok []) :=
  sr_handle_my_ip_packet_echo_reply sample_deps sample_sr (sample_ping.drop 14)
    (by decide) (by decide) (by decide) (by decide) (by decide)

/-- C4 as stated fails: an echo request to the router whose total length field
is 0 makes `ntohs(ip_len) - ip_hl*4 - 4` wrap around to 4294967272 bytes, and an
echo request that announces more bytes than the frame carries is also copied
from past the end of the frame; no reply is issued. -/
theorem echo_request_length_not_checked :
    (sr_check_packet sample_sr (ip_dst (sample_ping_len0.drop 14)) = some sample_eth0 ∧
      ip_p (sample_ping_len0.drop 14) = ip_protocol_icmp ∧
      byte_at (sample_ping_len0.drop 14) (ip_hl (sample_ping_len0.drop 14) * 4) =
        icmp_echo_request ∧
      sr_handle_my_ip_packet sample_deps sample_sr (sample_ping_len0.drop 14) =
        .error .oob_read) ∧
    (sr_check_packet sample_sr (ip_dst (sample_ping_truncated.drop 14)) = some sample_eth0 ∧
      ip_p (sample_ping_truncated.drop 14) = ip_protocol_icmp ∧
      byte_at (sample_ping_truncated.drop 14) (ip_hl (sample_ping_truncated.drop 14) * 4) =
        icmp_echo_request ∧
      sr_handle_my_ip_packet sample_deps sample_sr (sample_ping_truncated.drop 14) =
        .error .oob_read) := by
  refine ⟨⟨by decide, by decide, by decide, ?_⟩, ⟨by decide, by decide, by decide, ?_⟩⟩ <;> rfl

/-- C5, as amended: for every IP packet (at least the 20 header bytes) whose
protocol is not ICMP, whose first `ip_hl*4 + 8` bytes lie within the bytes
received and fit the `data` array of the type-3 message,
`sr_handle_my_ip_packet` issues exactly one ICMP message through `sr_send_ip`:
type 3, code port-unreachable, IP source the packet's destination, IP
destination the packet's source, of the fixed size, whose data field begins
with the first `ip_hl*4 + 8` bytes of the packet from its IP header on,
unmodified.  With a route for the source the message leaves as one frame, and
without one nothing is transmitted. -/
theorem sr_handle_my_ip_packet_port_unreachable (d : Deps) (sr : sr_instance)
    (ip_hdr : List Nat)
    (hhdr : sizeof_ip_hdr ≤ ip_hdr.length)
    (hp : ip_p ip_hdr ≠ ip_protocol_icmp)
    (hread : ip_hl ip_hdr * 4 + 8 ≤ ip_hdr.length)
    (hfit : ip_hl ip_hdr * 4 + 8 ≤ d.ICMP_DATA_SIZE) :
    ∃ msg,
      sr_handle_my_ip_packet d sr ip_hdr =
        sr_send_ip d sr ip_protocol_icmp (ip_dst ip_hdr) (ip_src ip_hdr) msg msg.length ∧
      msg.length = 8 + d.ICMP_DATA_SIZE ∧
      byte_at msg 0 = icmp_unreach ∧ byte_at msg 1 = icmp_port_unreach ∧
      (msg.drop 8).take (ip_hl ip_hdr * 4 + 8) = ip_hdr.take (ip_hl ip_hdr * 4 + 8) ∧
      (∀ (rt : sr_rt) (ifn : sr_if),
        d.longest_prefix_match sr (ip_src ip_hdr) = some rt →
        sr_get_interface sr rt.interface = some ifn →
        ∃ f, sr_handle_my_ip_packet d sr ip_hdr = .ok [Event.attempt_send rt.gw f ifn.name] ∧
          frame_ip_p f = ip_protocol_icmp ∧ frame_ip_src f = ip_dst ip_hdr ∧
          frame_ip_dst f = ip_src ip_hdr ∧ f.drop 34 = msg) ∧
      ((d.longest_prefix_match sr (ip_src ip_hdr) = none ∨
          ∃ rt, d.longest_prefix_match sr (ip_src ip_hdr) = some rt ∧
            sr_get_interface sr rt.interface = none) →
        sr_handle_my_ip_packet d sr ip_hdr = .ok []) := by
  have heq := port_unreach_eq d sr ip_hdr hhdr hp hread hfit
  have htl : (ip_hdr.take (ip_hl ip_hdr * 4 + 8)).length = ip_hl ip_hdr * 4 + 8 := by
    simp
    omega
  refine ⟨port_unreach_msg d ip_hdr, heq, ?_, rfl, rfl, ?_, ?_, ?_⟩
  · unfold port_unreach_msg
    rw [icmp3_msg_length _ _ _ _ (by omega)]
  · simp only [port_unreach_msg, icmp3_msg, List.cons_append, List.nil_append, List.drop_succ_cons,
      List.drop_zero]
    rw [List.take_append_of_le_length (by omega), List.take_of_length_le (by omega)]
  · intro rt ifn hrt hifn
    refine ⟨ip_frame d ifn ip_protocol_icmp (ip_dst ip_hdr) (ip_src ip_hdr)
      (port_unreach_msg d ip_hdr) (port_unreach_msg d ip_hdr).length, ?_,
      ip_frame_ip_p _ _ _ _ _ _ _, ?_, ?_, ip_frame_drop _ _ _ _ _ _ _⟩
    · rw [heq, sr_send_ip_routed d sr _ _ _ _ _ rt ifn rfl hrt hifn]
    · rw [ip_frame_ip_src]
      exact Nat.mod_eq_of_lt (be32_at_lt _ _)
    · rw [ip_frame_ip_dst]
      exact Nat.mod_eq_of_lt (be32_at_lt _ _)
  · intro h
    rw [heq, sr_send_ip_unrouted d sr _ _ _ _ _ h]

/-- A UDP datagram to the router with 12 bytes after the IP header. -/
theorem sr_handle_my_ip_packet_port_unreachable_witness :
    ∃ msg,
      sr_handle_my_ip_packet sample_deps sample_sr (sample_udp_me.drop 14) =
        sr_send_ip sample_deps sample_sr ip_protocol_icmp (ip_dst (sample_udp_me.drop 14))
          (ip_src (sample_udp_me.drop 14)) msg msg.length ∧
      msg.length = 8 + sample_deps.ICMP_DATA_SIZE ∧
      byte_at msg 0 = icmp_unreach ∧ byte_at msg 1 = icmp_port_unreach ∧
      (msg.drop 8).take (ip_hl (sample_udp_me.drop 14) * 4 + 8) =
        (sample_udp_me.drop 14).take (ip_hl (sample_udp_me.drop 14) * 4 + 8) ∧
      (∀ (rt : sr_rt) (ifn : sr_if),
        sample_deps.longest_prefix_match sample_sr (ip_src (sample_udp_me.drop 14)) = some rt →
        sr_get_interface sample_sr rt.interface = some ifn →
        ∃ f, sr_handle_my_ip_packet sample_deps sample_sr (sample_udp_me.drop 14) =
            .ok [Event.attempt_send rt.gw f ifn.name] ∧
          frame_ip_p f = ip_protocol_icmp ∧ frame_ip_src f = ip_dst (sample_udp_me.drop 14) ∧
          frame_ip_dst f = ip_src (sample_udp_me.drop 14) ∧ f.drop 34 = msg) ∧
      ((sample_deps.longest_prefix_match sample_sr (ip_src (sample_udp_me.drop 14)) = none ∨
          ∃ rt, sample_deps.longest_prefix_match sample_sr (ip_src (sample_udp_me.drop 14)) =
              some rt ∧ sr_get_interface sample_sr rt.interface = none) →
        sr_handle_my_ip_packet sample_deps sample_sr (sample_udp_me.drop 14) = .ok []) :=
  sr_handle_my_ip_packet_port_unreachable sample_deps sample_sr (sample_udp_me.drop 14)
    (by decide) (by decide) (by decide) (by decide)

/-- C5 as stated fails: a packet to the router with protocol UDP and only 4
bytes after its IP header makes the copy of `ip_hl*4 + 8` bytes read past the
end of the packet, and with a `data` array of 28 bytes a packet whose header
has one word of options makes the copy of 32 bytes write past the end of the
message; no message is issued. -/
theorem port_unreachable_copy_not_checked :
    (sr_check_packet sample_sr (ip_dst (sample_udp_me_short.drop 14)) = some sample_eth0 ∧
      ip_p (sample_udp_me_short.drop 14) ≠ ip_protocol_icmp ∧
      sr_handle_my_ip_packet sample_deps sample_sr (sample_udp_me_short.drop 14) =
        .error .oob_read) ∧
    (sr_check_packet sample_sr (ip_dst (sample_udp_me_options.drop 14)) = some sample_eth0 ∧
      ip_p (sample_udp_me_options.drop 14) ≠ ip_protocol_icmp ∧
      sample_deps.ICMP_DATA_SIZE = 28 ∧
      sr_handle_my_ip_packet sample_deps sample_sr (sample_udp_me_options.drop 14) =
        .error .oob_write) := by
  refine ⟨⟨by decide, by decide, ?_⟩, ⟨by decide, by decide, rfl, ?_⟩⟩ <;> rfl

/-- C6: a frame shorter than the Ethernet header (14 bytes) is dropped by
`sr_handlepacket`: no handler runs, no call leaves the file (no transmission,
no cache update, no ICMP message) and the buffer is untouched. -/
theorem sr_handlepacket_short_frame (d : Deps) (sr : sr_instance) (packet : List Nat)
    (interface : String) (hlen : packet.length < sizeof_ethernet_hdr) :
    sr_handlepacket d sr packet interface = .ok (packet, []) := by
  simp [sr_handlepacket, hlen]

/-- A frame of 13 bytes. -/
theorem sr_handlepacket_short_frame_witness :
    sr_handlepacket sample_deps sample_sr [255, 255, 255, 255, 255, 255, 2, 0, 0, 0, 0, 7, 8]
      "eth0" = .ok ([255, 255, 255, 255, 255, 255, 2, 0, 0, 0, 0, 7, 8], []) :=
  sr_handlepacket_short_frame sample_deps sample_sr _ "eth0" (by decide)

/-- C7: for a frame of at least 14 bytes `sr_handlepacket` delegates by the
Ethernet type alone: an IP frame goes to `sr_handle_ip_packet` whole, an ARP
frame goes to `sr_handle_arp_packet` as the bytes after the Ethernet header
(`len - 14` of them), and any other type makes no call and changes nothing. -/
theorem sr_handlepacket_dispatch (d : Deps) (sr : sr_instance) (packet : List Nat)
    (interface : String) (hlen : sizeof_ethernet_hdr ≤ packet.length) :
    (frame_ethertype packet = ethertype_ip →
      sr_handlepacket d sr packet interface = sr_handle_ip_packet d sr packet interface) ∧
    (frame_ethertype packet = ethertype_arp →
      sr_handlepacket d sr packet interface =
          (sr_handle_arp_packet sr (packet.drop sizeof_ethernet_hdr) interface).map
            (fun calls => (packet, calls)) ∧
        (packet.drop sizeof_ethernet_hdr).length = packet.length - sizeof_ethernet_hdr) ∧
    (frame_ethertype packet ≠ ethertype_ip → frame_ethertype packet ≠ ethertype_arp →
      sr_handlepacket d sr packet interface = .ok (packet, [])) := by
  have h14 : ¬ packet.length < 14 := by simpa using hlen
  have h16 : rd16 packet 12 = .ok (frame_ethertype packet) :=
    rd16_ok packet 12 (by simpa using hlen)
  refine ⟨?_, ?_, ?_⟩
  · intro hip
    simp [sr_handlepacket, h14, h16, hip, bind, Except.bind]
  · intro harp
    refine ⟨?_, by simp⟩
    simp only [sr_handlepacket, h14, h16, harp, bind, Except.bind, if_false]
    cases sr_handle_arp_packet sr (List.drop sizeof_ethernet_hdr packet) interface <;>
      simp [Except.map, pure, Except.pure]
  · intro hip harp
    simp [sr_handlepacket, h14, h16, hip, harp, bind, Except.bind, pure, Except.pure]

/-- An ARP request is passed on without its Ethernet header. -/
theorem sr_handlepacket_dispatch_witness :
    sr_handlepacket sample_deps sample_sr sample_arp_request "eth0" =
      (sr_handle_arp_packet sample_sr (sample_arp_request.drop sizeof_ethernet_hdr) "eth0").map
        (fun calls => (sample_arp_request, calls)) :=
  ((sr_handlepacket_dispatch sample_deps sample_sr sample_arp_request "eth0"
    (by decide)).2.1 (by decide)).1

/-- C8: for every IP frame of at least 34 bytes whose destination IP is the IP
of a configured interface, whatever its TTL, `sr_handle_ip_packet` does what
`sr_handle_my_ip_packet` does on the bytes after the Ethernet header and nothing
else.  The buffer is returned unchanged (TTL and checksum untouched); every
frame handed to `sr_attempt_send` is a fresh ICMP frame built by `sr_send_ip`,
never the received frame, and it is an echo reply or a port-unreachable, never a
time-exceeded or a network-unreachable; and the outcome depends on the routing
function only through the route of the frame's source, so the forwarding lookup
for the frame's destination is not made. -/
theorem sr_handle_ip_packet_local_delivery (d : Deps) (sr : sr_instance) (packet : List Nat)
    (interface : String) (iface : sr_if)
    (hlen : sizeof_ip_hdr + sizeof_ethernet_hdr ≤ packet.length)
    (hmem : iface ∈ sr.if_list) (hip : iface.ip = frame_ip_dst packet) :
    sr_handle_ip_packet d sr packet interface =
      (sr_handle_my_ip_packet d sr (packet.drop sizeof_ethernet_hdr)).map
        (fun calls => (packet, calls)) ∧
    (∀ buf calls, sr_handle_ip_packet d sr packet interface = .ok (buf, calls) →
      buf = packet ∧
      (calls = [] ∨ ∃ gw f n, calls = [Event.attempt_send gw f n] ∧ f ≠ packet ∧
        frame_ip_p f = ip_protocol_icmp ∧
        ((byte_at f 34 = icmp_echo_reply ∧ byte_at f 35 = icmp_echo_reply_code) ∨
          (byte_at f 34 = icmp_unreach ∧ byte_at f 35 = icmp_port_unreach)))) ∧
    (∀ d' : Deps, d'.cksum = d.cksum → d'.ICMP_DATA_SIZE = d.ICMP_DATA_SIZE →
      d'.longest_prefix_match sr (frame_ip_src packet) =
        d.longest_prefix_match sr (frame_ip_src packet) →
      sr_handle_ip_packet d' sr packet interface = sr_handle_ip_packet d sr packet interface) := by
  obtain ⟨found, hfound⟩ := sr_check_packet_walk_of_mem sr.if_list _ iface hmem hip
  have heq : ∀ d0 : Deps, sr_handle_ip_packet d0 sr packet interface =
      (sr_handle_my_ip_packet d0 sr (packet.drop sizeof_ethernet_hdr)).map
        (fun calls => (packet, calls)) :=
    fun d0 => local_delivery_eq d0 sr packet interface found hlen hfound
  refine ⟨heq d, ?_, ?_⟩
  · intro buf calls h
    rw [heq d] at h
    cases hm : sr_handle_my_ip_packet d sr (packet.drop sizeof_ethernet_hdr) with
    | error e =>
      rw [hm] at h
      simp [Except.map] at h
    | ok c =>
      rw [hm] at h
      simp only [Except.map, Except.ok.injEq, Prod.mk.injEq] at h
      obtain ⟨hb, hc⟩ := h
      subst hb hc
      refine ⟨rfl, ?_⟩
      rcases sr_handle_my_ip_packet_calls d sr _ _ hm with h0 | ⟨gw, f, n, hcalls, h14, hpf, hkind⟩
      · exact Or.inl h0
      · refine Or.inr ⟨gw, f, n, hcalls, ?_, hpf, ?_⟩
        · intro hfp
          subst hfp
          rcases hkind with ⟨h34, _, _, htype⟩ | ⟨_, _, hnp⟩
          · have hhl : ip_hl (List.drop sizeof_ethernet_hdr f) * 4 = 20 := by
              simp only [ip_hl, byte_at_drop, h14]
            rw [hhl, byte_at_drop] at htype
            rw [h34] at htype
            exact absurd htype (by decide)
          · apply hnp
            rw [← frame_ip_p_eq]
            exact hpf
        · rcases hkind with ⟨h34, h35, _, _⟩ | ⟨h34, h35, _⟩
          · exact Or.inl ⟨h34, h35⟩
          · exact Or.inr ⟨h34, h35⟩
  · intro d' hc hn hl
    rw [heq d', heq d, sr_handle_my_ip_packet_congr d d' sr _ hc hn (by rw [← frame_ip_src_eq]; exact hl)]

/-- An echo request with TTL 1 to the IP of `eth0`, received on `eth1`. -/
theorem sr_handle_ip_packet_local_delivery_witness :
    sr_handle_ip_packet sample_deps sample_sr sample_ping_ttl1 "eth1" =
      (sr_handle_my_ip_packet sample_deps sample_sr
        (sample_ping_ttl1.drop sizeof_ethernet_hdr)).map
        (fun calls => (sample_ping_ttl1, calls)) :=
  (sr_handle_ip_packet_local_delivery sample_deps sample_sr sample_ping_ttl1 "eth1" sample_eth0
    (by decide) (by decide) (by decide)).1

/-- C9: an ARP packet of at least the ARP header size whose target IP is the
IP of the receiving interface is passed to `sr_recv_arp` exactly once, whatever
its operation; `sr_send_arp` is called (a reply to the sender's MAC and IP on
the receiving interface) exactly when the operation is `request`. -/
theorem sr_handle_arp_packet_for_me (sr : sr_instance) (arp_packet : List Nat)
    (interface : String) (iface : sr_if)
    (hlen : sizeof_arp_hdr ≤ arp_packet.length)
    (hif : sr_get_interface sr interface = some iface)
    (htip : iface.ip = arp_tip arp_packet) :
    sr_handle_arp_packet sr arp_packet interface =
      .ok (Event.recv_arp arp_packet ::
        (if arp_op arp_packet = arp_op_request then
          [Event.send_arp arp_op_reply interface (arp_sha arp_packet) (arp_sip arp_packet)]
        else [])) := by
  have h28 : ¬ arp_packet.length < 28 := by simpa using hlen
  have hl : 28 ≤ arp_packet.length := hlen
  have h1 : rd32 arp_packet 24 = .ok (arp_tip arp_packet) := rd32_ok _ _ (by omega)
  have h2 : rd16 arp_packet 6 = .ok (arp_op arp_packet) := rd16_ok _ _ (by omega)
  have h3 : rd32 arp_packet 14 = .ok (arp_sip arp_packet) := rd32_ok _ _ (by omega)
  have h4 : read_bytes arp_packet 8 6 = .ok (arp_sha arp_packet) := read_bytes_ok _ _ _ (by omega)
  simp only [sr_handle_arp_packet, h28, hif, h1, h2, h3, h4, htip, bind, Except.bind, pure,
    Except.pure, if_false, if_true]
  split_ifs <;> rfl

/-- An ARP request for the IP of `eth0` received on `eth0`. -/
theorem sr_handle_arp_packet_for_me_witness :
    sr_handle_arp_packet sample_sr (sample_arp_request.drop 14) "eth0" =
      .ok [Event.recv_arp (sample_arp_request.drop 14),
           Event.send_arp arp_op_reply "eth0" [2, 0, 0, 0, 0, 7] 0x0A000107] :=
  sr_handle_arp_packet_for_me sample_sr (sample_arp_request.drop 14) "eth0"
    sample_eth0 (by decide) (by decide) (by decide)

/-- C10: an ARP packet shorter than the ARP header, or one whose target IP is
not the IP of the receiving interface, causes no call at all: neither
`sr_recv_arp` (no cache insertion) nor `sr_send_arp` (no reply). -/
theorem sr_handle_arp_packet_dropped (sr : sr_instance) (arp_packet : List Nat)
    (interface : String)
    (h : arp_packet.length < sizeof_arp_hdr ∨
      ∃ iface, sr_get_interface sr interface = some iface ∧ iface.ip ≠ arp_tip arp_packet) :
    sr_handle_arp_packet sr arp_packet interface = .ok [] := by
  by_cases hlen : arp_packet.length < 28
  · simp [sr_handle_arp_packet, hlen]
  · rcases h with h | ⟨iface, hif, hne⟩
    · exact absurd h hlen
    · have h1 : rd32 arp_packet 24 = .ok (arp_tip arp_packet) := rd32_ok _ _ (by omega)
      simp [sr_handle_arp_packet, hlen, hif, h1, hne, bind, Except.bind, pure, Except.pure]

/-- An ARP request for the IP of `eth0` received on `eth1`. -/
theorem sr_handle_arp_packet_dropped_witness :
    sr_handle_arp_packet sample_sr (sample_arp_request.drop 14) "eth1" = .ok [] :=
  sr_handle_arp_packet_dropped sample_sr (sample_arp_request.drop 14) "eth1"
    (Or.inr ⟨sample_eth1, by decide, by decide⟩)

/-! ## Further facts about buffers and interfaces -/

theorem getElem?_write_bytes_outside (buf : List Nat) (off : Nat) (src : List Nat) (i : Nat)
    (h : ¬ (off ≤ i ∧ i < off + src.length)) : (write_bytes buf off src)[i]? = buf[i]? := by
  unfold write_bytes
  by_cases hi : i < buf.length
  · simp [List.getElem?_map, List.getElem?_range, hi, h, List.getD_eq_getElem?_getD]
  · have hr : (List.range buf.length)[i]? = none := by
      apply List.getElem?_eq_none
      simpa using hi
    have hb : buf[i]? = none := List.getElem?_eq_none (by omega)
    simp [List.getElem?_map, hr, hb]

theorem sr_get_interface_walk_name (l : List sr_if) (name : String) (found : sr_if)
    (h : sr_get_interface_walk l name = some found) : found.name = name := by
  induction l with
  | nil => simp [sr_get_interface_walk] at h
  | cons a rest ih =>
    by_cases ha : a.name = name
    · simp only [sr_get_interface_walk, ha, if_true, Option.some.injEq] at h
      rw [← h]
      exact ha
    · simp only [sr_get_interface_walk, ha, if_false] at h
      exact ih h

/-! ## The claims, continued -/

/-- C11: a frame shorter than the Ethernet header plus the minimum IP header
(34 bytes) is dropped by `sr_handle_ip_packet` before anything else happens:
whatever its bytes are, and so without a read of any IP header field, the
result is the unchanged buffer and no call (no ICMP message, nothing
forwarded).  The same holds for such a frame of type IP at the entry point. -/
theorem sr_handle_ip_packet_short_frame (d : Deps) (sr : sr_instance) (packet : List Nat)
    (interface : String) (hlen : packet.length < sizeof_ip_hdr + sizeof_ethernet_hdr) :
    sr_handle_ip_packet d sr packet interface = .ok (packet, []) ∧
    (sizeof_ethernet_hdr ≤ packet.length → frame_ethertype packet = ethertype_ip →
      sr_handlepacket d sr packet interface = .ok (packet, [])) := by
  have h1 : sr_handle_ip_packet d sr packet interface = .ok (packet, []) := by
    simp [sr_handle_ip_packet, hlen]
  refine ⟨h1, ?_⟩
  intro h14 htype
  have hn : ¬ packet.length < 14 := by simpa using h14
  have h16 : rd16 packet 12 = .ok (frame_ethertype packet) :=
    rd16_ok packet 12 (by simpa using h14)
  simp [sr_handlepacket, hn, h16, htype, h1, bind, Except.bind]

/-- The first 30 bytes of an IP frame. -/
theorem sr_handle_ip_packet_short_frame_witness :
    sr_handle_ip_packet sample_deps sample_sr (sample_ping.take 30) "eth0" =
      .ok (sample_ping.take 30, []) ∧
    (sizeof_ethernet_hdr ≤ (sample_ping.take 30).length →
      frame_ethertype (sample_ping.take 30) = ethertype_ip →
      sr_handlepacket sample_deps sample_sr (sample_ping.take 30) "eth0" =
        .ok (sample_ping.take 30, [])) :=
  sr_handle_ip_packet_short_frame sample_deps sample_sr (sample_ping.take 30) "eth0"
    (by decide)

/-- C16: for every IP packet (at least the 20 header bytes) whose protocol is
ICMP and whose ICMP type, the byte at offset `ip_hl*4`, is anything other than
echo-request, `sr_handle_my_ip_packet` makes no call at all: neither an echo
reply nor a port-unreachable is produced. -/
theorem sr_handle_my_ip_packet_other_icmp (d : Deps) (sr : sr_instance) (ip_hdr : List Nat)
    (hhdr : sizeof_ip_hdr ≤ ip_hdr.length)
    (hp : ip_p ip_hdr = ip_protocol_icmp)
    (hin : ip_hl ip_hdr * 4 < ip_hdr.length)
    (htype : byte_at ip_hdr (ip_hl ip_hdr * 4) ≠ icmp_echo_request) :
    sr_handle_my_ip_packet d sr ip_hdr = .ok [] := by
  have h20 : 20 ≤ ip_hdr.length := hhdr
  have e0 : rd8 ip_hdr 0 = .ok (byte_at ip_hdr 0) := rd8_ok _ _ (by omega)
  have e1 : rd8 ip_hdr 9 = .ok (ip_p ip_hdr) := rd8_ok _ _ (by omega)
  have e2 : rd16 ip_hdr 2 = .ok (ip_len ip_hdr) := rd16_ok _ _ (by omega)
  have e3 : rd8 ip_hdr (byte_at ip_hdr 0 % 16 * 4) = .ok (byte_at ip_hdr (ip_hl ip_hdr * 4)) :=
    rd8_ok _ _ hin
  simp only [sr_handle_my_ip_packet, e0, e1, e2, e3, hp, htype, bind, Except.bind, if_true,
    if_false, pure, Except.pure]

/-- An ICMP message of type 0 addressed to the router. -/
theorem sr_handle_my_ip_packet_other_icmp_witness :
    sr_handle_my_ip_packet sample_deps sample_sr (sample_icmp_other.drop 14) = .ok [] :=
  sr_handle_my_ip_packet_other_icmp sample_deps sample_sr (sample_icmp_other.drop 14)
    (by decide) (by decide) (by decide) (by decide)

/-- The frame that the forwarding branch hands to `sr_attempt_send` agrees with
the received frame outside the source MAC, the TTL and the checksum. -/
theorem forwarded_frame_bytes (d : Deps) (packet mac : List Nat) (hmac : mac.length = 6)
    (i : Nat) (h6 : ¬ (6 ≤ i ∧ i < 12)) (h22 : i ≠ 22) (h24 : i ≠ 24) (h25 : i ≠ 25) :
    (write_bytes (buffer_new_sum d packet) 6 mac)[i]? = packet[i]? := by
  unfold buffer_new_sum buffer_zero_sum
  rw [getElem?_write_bytes_outside _ _ _ _ (by rw [hmac]; omega),
    getElem?_write_bytes_outside _ _ _ _ (by simp [bytes16]; omega),
    getElem?_write_bytes_outside _ _ _ _ (by simp; omega),
    getElem?_write_bytes_outside _ _ _ _ (by simp; omega)]

/-- C19: for every frame that `sr_handle_ip_packet` forwards, the frame handed
to `sr_attempt_send` has the length of the received frame and agrees with it at
every offset other than 6 to 11 (Ethernet source MAC), 22 (TTL), 24 and 25 (IP
checksum).  The frames on the route path are those of at least 34 bytes, not
addressed to an interface IP, with TTL on arrival not 1 and a route for the
destination.  Such a frame is forwarded, with this effect, when its `ip_hl*4`
header bytes lie within it and the route's interface is in the interface table;
and whenever the handler returns on this path at all, it has made exactly one
call, the forward, with this effect. -/
theorem sr_handle_ip_packet_forward_frame_effect (d : Deps) (sr : sr_instance)
    (packet : List Nat) (interface : String) (route : sr_rt)
    (hlen : sizeof_ip_hdr + sizeof_ethernet_hdr ≤ packet.length)
    (hdst : ∀ i ∈ sr.if_list, i.ip ≠ frame_ip_dst packet)
    (httl : frame_ip_ttl packet ≠ 1)
    (hroute : d.longest_prefix_match sr (frame_ip_dst packet) = some route) :
    (sizeof_ethernet_hdr + frame_ip_hl packet * 4 ≤ packet.length →
      ∀ node, sr_get_interface sr route.interface = some node →
      ∃ buf f,
        sr_handle_ip_packet d sr packet interface =
          .ok (buf, [Event.attempt_send route.gw f route.interface]) ∧
        f.length = packet.length ∧
        ∀ i, ¬ (6 ≤ i ∧ i < 12) → i ≠ 22 → i ≠ 24 → i ≠ 25 → f[i]? = packet[i]?) ∧
    (∀ buf calls, sr_handle_ip_packet d sr packet interface = .ok (buf, calls) →
      ∃ f, calls = [Event.attempt_send route.gw f route.interface] ∧
        f.length = packet.length ∧
        ∀ i, ¬ (6 ≤ i ∧ i < 12) → i ≠ 22 → i ≠ 24 → i ≠ 25 → f[i]? = packet[i]?) := by
  have hchk := sr_check_packet_walk_eq_none _ _ hdst
  refine ⟨?_, ?_⟩
  · intro hhdr node hnode
    exact ⟨_, _, forward_eq d sr packet interface route node hlen hchk httl hhdr hroute hnode,
      by simp, forwarded_frame_bytes d packet _ (length_ether_addr _)⟩
  · intro buf calls hres
    by_cases hhdr : sizeof_ethernet_hdr + frame_ip_hl packet * 4 ≤ packet.length
    · cases hnode : sr_get_interface sr route.interface with
      | none =>
        rw [forward_null_eq d sr packet interface route hlen hchk httl hhdr hroute hnode] at hres
        cases hres
      | some node =>
        rw [forward_eq d sr packet interface route node hlen hchk httl hhdr hroute hnode] at hres
        cases hres
        exact ⟨_, rfl, by simp, forwarded_frame_bytes d packet _ (length_ether_addr _)⟩
    · rw [forward_over_read_eq d sr packet interface hlen hchk httl hhdr] at hres
      cases hres

/-- The forwarded sample datagram. -/
theorem sr_handle_ip_packet_forward_frame_effect_witness :
    ∃ buf f,
      sr_handle_ip_packet sample_deps sample_sr sample_transit "eth0" =
        .ok (buf, [Event.attempt_send sample_rt1.gw f sample_rt1.interface]) ∧
      f.length = sample_transit.length ∧
      ∀ i, ¬ (6 ≤ i ∧ i < 12) → i ≠ 22 → i ≠ 24 → i ≠ 25 → f[i]? = sample_transit[i]? :=
  (sr_handle_ip_packet_forward_frame_effect sample_deps sample_sr sample_transit "eth0"
    sample_rt1 (by decide) (by decide) (by decide) (by decide)).1 (by decide) sample_eth1
    (by decide)

/-! ## Further facts about the frames that `sr_send_ip` builds -/

theorem getElem?_write_bytes_inside (buf : List Nat) (off : Nat) (src : List Nat) (i : Nat)
    (h : off ≤ i ∧ i < off + src.length) (hi : i < buf.length) :
    (write_bytes buf off src)[i]? = src[i - off]? := by
  unfold write_bytes
  have hs : i - off < src.length := by omega
  simp [List.getElem?_map, List.getElem?_range, hi, h, List.getD_eq_getElem?_getD,
    List.getElem?_eq_getElem hs]

theorem write_bytes_eq_take_append (buf : List Nat) (off : Nat) (src : List Nat)
    (h : off + src.length ≤ buf.length) :
    write_bytes buf off src = buf.take off ++ (src ++ buf.drop (off + src.length)) := by
  apply List.ext_getElem?
  intro i
  have htake : (buf.take off).length = off := by simp; omega
  by_cases hin : off ≤ i ∧ i < off + src.length
  · rw [getElem?_write_bytes_inside _ _ _ _ hin (by omega),
      List.getElem?_append_right (by omega), htake,
      List.getElem?_append_left (by omega)]
  · rw [getElem?_write_bytes_outside _ _ _ _ hin]
    by_cases hlt : i < off
    · rw [List.getElem?_append_left (by omega), List.getElem?_take_of_lt hlt]
    · rw [List.getElem?_append_right (by omega), htake,
        List.getElem?_append_right (by omega), List.getElem?_drop]
      congr 1
      omega

theorem ip_frame_zero_sum (d : Deps) (ifn : sr_if) (protocol source dest : Nat)
    (payload : List Nat) (len : Nat) :
    (write_bytes (ip_frame d ifn protocol source dest payload len) 24 [0, 0]).drop 14 =
      ip_hdr_bytes 0 protocol source dest len ++ payload := by
  rw [write_bytes_eq_take_append _ _ _ (by rw [ip_frame_length]; simp; omega),
    ip_frame_explicit]
  rfl

theorem ip_frame_ip_len (d : Deps) (ifn : sr_if) (protocol source dest : Nat)
    (payload : List Nat) (len : Nat) :
    frame_ip_len (ip_frame d ifn protocol source dest payload len) = (20 + len) % 65536 := by
  rw [ip_frame_explicit]
  simp only [frame_ip_len, be16_at, byte_at, List.getD_cons_succ, List.getD_cons_zero]
  omega

/-! ## The claims on the send path, on reads and writes, and on the TTL -/

/-- C12, as amended: for every call `sr_send_ip(protocol, source, dest, buf, len)`
on `len` bytes of `buf`, with `protocol` below 256 and 32-bit addresses: if
`longest_prefix_match(dest)` finds no route, or the route's interface is not in
the interface table, nothing is transmitted; otherwise exactly one frame of
`14 + 20 + len` bytes is handed to `sr_attempt_send` with next hop the route's
gateway on the route's interface.  The frame has Ethernet type IP, the
interface's MAC as Ethernet source, IP version 4, header length 5, only the
don't-fragment flag set, TTL 64, the given protocol, source and destination, a
total length field of `(20 + len) mod 65536` (which is `20 + len` up to
`len = 65515`), a checksum field equal to `cksum` over the 20 header bytes taken
with a zeroed checksum field, and `buf` copied unchanged after the IP header. -/
theorem sr_send_ip_frame (d : Deps) (sr : sr_instance) (protocol source dest : Nat)
    (buf : List Nat) (len : Nat)
    (hlen : len ≤ buf.length) (hproto : protocol < 256)
    (hsource : source < 4294967296) (hdest : dest < 4294967296) :
    ((d.longest_prefix_match sr dest = none ∨
        ∃ rt, d.longest_prefix_match sr dest = some rt ∧
          sr_get_interface sr rt.interface = none) →
      sr_send_ip d sr protocol source dest buf len = .ok []) ∧
    (∀ (rt : sr_rt) (ifn : sr_if),
      d.longest_prefix_match sr dest = some rt →
      sr_get_interface sr rt.interface = some ifn →
      ∃ f, sr_send_ip d sr protocol source dest buf len =
          .ok [Event.attempt_send rt.gw f rt.interface] ∧
        f.length = sizeof_ethernet_hdr + sizeof_ip_hdr + len ∧
        frame_ethertype f = ethertype_ip ∧
        frame_shost f = ether_addr ifn.addr ∧
        byte_at f 14 / 16 = 4 ∧ frame_ip_hl f = 5 ∧
        be16_at f 20 = IP_DF ∧
        frame_ip_ttl f = 64 ∧
        frame_ip_p f = protocol ∧ frame_ip_src f = source ∧ frame_ip_dst f = dest ∧
        frame_ip_len f = (sizeof_ip_hdr + len) % 65536 ∧
        (len ≤ 65515 → frame_ip_len f = sizeof_ip_hdr + len) ∧
        frame_ip_sum f =
          d.cksum ((write_bytes f 24 [0, 0]).drop sizeof_ethernet_hdr) sizeof_ip_hdr ∧
        f.drop (sizeof_ethernet_hdr + sizeof_ip_hdr) = buf.take len) := by
  refine ⟨fun h => sr_send_ip_unrouted d sr _ _ _ _ _ h, ?_⟩
  intro rt ifn hrt hifn
  have hname : ifn.name = rt.interface := sr_get_interface_walk_name _ _ _ hifn
  have hsend : sr_send_ip d sr protocol source dest buf len =
      .ok [Event.attempt_send rt.gw (ip_frame d ifn protocol source dest (buf.take len) len)
        rt.interface] := by
    simp [sr_send_ip, hrt, hifn, read_bytes_take _ _ hlen, hname]
  have htl : (buf.take len).length = len := by simp; omega
  have hc := d.cksum_lt (ip_hdr_bytes 0 protocol source dest len ++ buf.take len) 20
  have h20 : sizeof_ip_hdr = 20 := rfl
  have h14 : sizeof_ethernet_hdr = 14 := rfl
  have hlenf : frame_ip_len (ip_frame d ifn protocol source dest (buf.take len) len) =
      (sizeof_ip_hdr + len) % 65536 := ip_frame_ip_len _ _ _ _ _ _ _
  refine ⟨_, hsend, ?_, ip_frame_ethertype _ _ _ _ _ _ _, ?_, ?_, ?_, ?_, ?_, ?_, ?_, ?_,
    hlenf, ?_, ?_, ip_frame_drop _ _ _ _ _ _ _⟩
  · rw [ip_frame_length, htl]
    omega
  · rw [ip_frame_explicit]
    simp [frame_shost, ether_addr]
  · rw [ip_frame_version_hl]
  · simp [frame_ip_hl, ip_frame_version_hl]
  · rw [ip_frame_explicit]
    simp [be16_at, byte_at]
  · rw [ip_frame_explicit]
    simp [frame_ip_ttl, byte_at]
  · rw [ip_frame_ip_p]
    exact Nat.mod_eq_of_lt hproto
  · rw [ip_frame_ip_src]
    exact Nat.mod_eq_of_lt hsource
  · rw [ip_frame_ip_dst]
    exact Nat.mod_eq_of_lt hdest
  · intro h
    rw [hlenf]
    exact Nat.mod_eq_of_lt (by omega)
  · rw [ip_frame_zero_sum, ip_frame_explicit]
    show _ = d.cksum _ 20
    simp only [frame_ip_sum, be16_at, byte_at, List.getD_cons_succ, List.getD_cons_zero]
    omega

/-- An ICMP message of 8 bytes sent from the router's 10.0.1.1 to 10.0.1.7. -/
theorem sr_send_ip_frame_witness :
    ∃ f, sr_send_ip sample_deps sample_sr ip_protocol_icmp 0x0A000101 0x0A000107
          [0, 0, 255, 255, 0, 1, 0, 1] 8 =
          .ok [Event.attempt_send sample_rt0.gw f sample_rt0.interface] ∧
        f.length = sizeof_ethernet_hdr + sizeof_ip_hdr + 8 ∧
        frame_ethertype f = ethertype_ip ∧
        frame_shost f = ether_addr sample_eth0.addr ∧
        byte_at f 14 / 16 = 4 ∧ frame_ip_hl f = 5 ∧
        be16_at f 20 = IP_DF ∧
        frame_ip_ttl f = 64 ∧
        frame_ip_p f = ip_protocol_icmp ∧ frame_ip_src f = 0x0A000101 ∧
        frame_ip_dst f = 0x0A000107 ∧
        frame_ip_len f = (sizeof_ip_hdr + 8) % 65536 ∧
        (8 ≤ 65515 → frame_ip_len f = sizeof_ip_hdr + 8) ∧
        frame_ip_sum f =
          sample_deps.cksum ((write_bytes f 24 [0, 0]).drop sizeof_ethernet_hdr)
            sizeof_ip_hdr ∧
        f.drop (sizeof_ethernet_hdr + sizeof_ip_hdr) =
          [0, 0, 255, 255, 0, 1, 0, 1].take 8 :=
  (sr_send_ip_frame sample_deps sample_sr ip_protocol_icmp 0x0A000101 0x0A000107
    [0, 0, 255, 255, 0, 1, 0, 1] 8 (by decide) (by decide) (by decide) (by decide)).2
    sample_rt0 sample_eth0 (by decide) (by decide)

/-- C12 as stated fails: a payload of 65516 bytes gives a frame whose total
length field is 0, not `20 + 65516`, because `htons(ip_len + len)` keeps 16
bits. -/
theorem sr_send_ip_total_length_wraps :
    sr_send_ip sample_deps sample_sr ip_protocol_icmp 0x0A000101 0x0A000107
        (List.replicate 65516 0) 65516 =
      .ok [Event.attempt_send sample_rt0.gw
        (ip_frame sample_deps sample_eth0 ip_protocol_icmp 0x0A000101 0x0A000107
          (List.replicate 65516 0) 65516) sample_eth0.name] ∧
    frame_ip_len (ip_frame sample_deps sample_eth0 ip_protocol_icmp 0x0A000101 0x0A000107
      (List.replicate 65516 0) 65516) = 0 ∧
    frame_ip_len (ip_frame sample_deps sample_eth0 ip_protocol_icmp 0x0A000101 0x0A000107
      (List.replicate 65516 0) 65516) ≠ sizeof_ip_hdr + 65516 := by
  refine ⟨sr_send_ip_routed sample_deps sample_sr _ _ _ _ _ sample_rt0 sample_eth0
    (List.length_replicate _ _).symm (by decide) (by decide), ?_, ?_⟩
  · rw [ip_frame_ip_len]
  · rw [ip_frame_ip_len]
    decide

/-- C13 fails on the code: each of these frames passes the length checks of
`sr_handlepacket` and `sr_handle_ip_packet`, and is then read past its end: by
the copy of `ip_hl*4 + 8` bytes for time-exceeded, for network-unreachable and
for port-unreachable, by the read of the ICMP type byte at offset
`14 + ip_hl*4`, and by the copy of the echo payload. -/
theorem handlers_read_past_the_frame :
    (sizeof_ip_hdr + sizeof_ethernet_hdr ≤ sample_bare_ttl1.length ∧
      sr_handlepacket sample_deps sample_sr sample_bare_ttl1 "eth0" = .error .oob_read) ∧
    (sizeof_ip_hdr + sizeof_ethernet_hdr ≤ sample_bare_unrouted.length ∧
      sr_handlepacket sample_deps sample_sr sample_bare_unrouted "eth0" = .error .oob_read) ∧
    (sizeof_ip_hdr + sizeof_ethernet_hdr ≤ sample_udp_me_short.length ∧
      sr_handlepacket sample_deps sample_sr sample_udp_me_short "eth0" = .error .oob_read) ∧
    (sizeof_ip_hdr + sizeof_ethernet_hdr ≤ sample_bare_icmp_me.length ∧
      sr_handlepacket sample_deps sample_sr sample_bare_icmp_me "eth0" = .error .oob_read) ∧
    (sizeof_ip_hdr + sizeof_ethernet_hdr ≤ sample_ping_truncated.length ∧
      sr_handlepacket sample_deps sample_sr sample_ping_truncated "eth0" =
        .error .oob_read) := by
  refine ⟨⟨by decide, ?_⟩, ⟨by decide, ?_⟩, ⟨by decide, ?_⟩, ⟨by decide, ?_⟩,
    ⟨by decide, ?_⟩⟩ <;> rfl

/-- C14 fails on the code: the sample datagram for an unrouted destination
arrives with TTL 64 and checksum `195, 177`, and the header embedded in the
network-unreachable message (from offset 42 of the frame sent) carries TTL 63
and checksum `196, 177`: it is copied after the TTL and checksum update. -/
theorem net_unreachable_embeds_the_rewritten_header :
    frame_ip_ttl sample_unrouted = 64 ∧ frame_ip_sum sample_unrouted = 195 * 256 + 177 ∧
    sr_handle_ip_packet sample_deps sample_sr sample_unrouted "eth0" =
      .ok ([2, 0, 0, 0, 0, 1, 2, 0, 0, 0, 0, 7, 8, 0,
            69, 0, 0, 32, 0, 0, 0, 0, 63, 17, 196, 177, 10, 0, 1, 7, 172, 16, 0, 5,
            48, 57, 0, 53, 0, 12, 0, 0, 1, 2, 3, 4],
        [Event.attempt_send 0x0A000102
          [0, 0, 0, 0, 0, 0, 2, 0, 0, 0, 0, 1, 8, 0,
           69, 0, 0, 56, 0, 0, 64, 0, 64, 1, 36, 190, 10, 0, 1, 1, 10, 0, 1, 7,
           3, 0, 204, 133, 0, 0, 0, 0,
           69, 0, 0, 32, 0, 0, 0, 0, 63, 17, 196, 177, 10, 0, 1, 7, 172, 16, 0, 5,
           48, 57, 0, 53, 0, 12, 0, 0] "eth0"]) := by
  refine ⟨by decide, by decide, ?_⟩
  rfl

/-- C15, as amended: for every IP frame of at least 34 bytes that is not
addressed to an interface IP, whose TTL on arrival is 1, whose `ip_hl*4 + 8`
bytes from the IP header on lie within the frame and whose receiving interface
is in the interface table, `sr_handle_ip_packet` leaves the frame unchanged and
passes one ICMP message to `sr_send_ip` with the receiving interface's IP as IP
source and the frame's IP source as destination.  The message has exactly
`8 + ip_hl*4 + 8` bytes: type time-exceeded, code 0, the checksum, four zero
bytes, and then the `ip_hl*4 + 8` bytes of the frame from its IP header on as
received. -/
theorem sr_handle_ip_packet_time_exceeded_message (d : Deps) (sr : sr_instance)
    (packet : List Nat) (interface : String) (iface : sr_if)
    (hlen : sizeof_ip_hdr + sizeof_ethernet_hdr ≤ packet.length)
    (hdst : ∀ i ∈ sr.if_list, i.ip ≠ frame_ip_dst packet)
    (httl : frame_ip_ttl packet = 1)
    (hbound : sizeof_ethernet_hdr + frame_ip_hl packet * 4 + 8 ≤ packet.length)
    (hif : sr_get_interface sr interface = some iface) :
    ∃ msg,
      sr_handle_ip_packet d sr packet interface =
        (sr_send_ip d sr ip_protocol_icmp iface.ip (frame_ip_src packet) msg msg.length).map
          (fun calls => (packet, calls)) ∧
      msg.length = 8 + frame_ip_hl packet * 4 + 8 ∧
      byte_at msg 0 = icmp_ttl ∧ byte_at msg 1 = icmp_ttl_code ∧
      be16_at msg 2 = d.cksum (write_bytes msg 2 [0, 0]) msg.length ∧
      (msg.drop 4).take 4 = [0, 0, 0, 0] ∧
      msg.drop 8 = (packet.drop sizeof_ethernet_hdr).take (frame_ip_hl packet * 4 + 8) := by
  have heq := ttl_expired_eq d sr packet interface iface hlen
    (sr_check_packet_walk_eq_none _ _ hdst) httl hbound hif
  have hb : 14 + frame_ip_hl packet * 4 + 8 ≤ packet.length := hbound
  have hbody : (List.replicate 4 0 ++
      (packet.drop 14).take (frame_ip_hl packet * 4 + 8)).length =
      4 + (frame_ip_hl packet * 4 + 8) := by
    simp
    omega
  have hl : (time_exceeded_msg d packet).length = 8 + frame_ip_hl packet * 4 + 8 := by
    unfold time_exceeded_msg
    rw [icmp_msg_length, hbody]
    omega
  refine ⟨time_exceeded_msg d packet, heq, hl, rfl, rfl, ?_, rfl, rfl⟩
  have hc := d.cksum_lt ([icmp_ttl % 256, icmp_ttl_code % 256, 0, 0] ++
    (List.replicate 4 0 ++ (packet.drop 14).take (frame_ip_hl packet * 4 + 8)))
    (sizeof_icmp_hdr + (List.replicate 4 0 ++
      (packet.drop 14).take (frame_ip_hl packet * 4 + 8)).length)
  unfold time_exceeded_msg
  rw [icmp_msg_length]
  simp only [icmp_msg, sizeof_icmp_hdr, List.cons_append, List.nil_append,
    write_bytes_sum_field] at hc ⊢
  simp only [be16_at, byte_at_cons_succ, byte_at_cons_zero]
  omega

/-- The time-exceeded message for the sample datagram that arrives with TTL 1. -/
theorem sr_handle_ip_packet_time_exceeded_message_witness :
    ∃ msg,
      sr_handle_ip_packet sample_deps sample_sr sample_transit_ttl1 "eth0" =
        (sr_send_ip sample_deps sample_sr ip_protocol_icmp sample_eth0.ip
          (frame_ip_src sample_transit_ttl1) msg msg.length).map
          (fun calls => (sample_transit_ttl1, calls)) ∧
      msg.length = 8 + frame_ip_hl sample_transit_ttl1 * 4 + 8 ∧
      byte_at msg 0 = icmp_ttl ∧ byte_at msg 1 = icmp_ttl_code ∧
      be16_at msg 2 = sample_deps.cksum (write_bytes msg 2 [0, 0]) msg.length ∧
      (msg.drop 4).take 4 = [0, 0, 0, 0] ∧
      msg.drop 8 = (sample_transit_ttl1.drop sizeof_ethernet_hdr).take
        (frame_ip_hl sample_transit_ttl1 * 4 + 8) :=
  sr_handle_ip_packet_time_exceeded_message sample_deps sample_sr sample_transit_ttl1 "eth0"
    sample_eth0 (by decide) (by decide) (by decide) (by decide) (by decide)

/-- C15 as stated fails: a frame of 46 bytes with TTL 1 whose header length
field says 15 words has 32 bytes from its IP header on, the copy of
`ip_hl*4 + 8 = 68` bytes reads past its end, and no message is passed on. -/
theorem time_exceeded_copy_not_checked :
    sizeof_ip_hdr + sizeof_ethernet_hdr ≤ sample_ttl1_hl15.length ∧
    (∀ i ∈ sample_sr.if_list, i.ip ≠ frame_ip_dst sample_ttl1_hl15) ∧
    frame_ip_ttl sample_ttl1_hl15 = 1 ∧
    frame_ip_hl sample_ttl1_hl15 * 4 + 8 = 68 ∧
    sr_handle_ip_packet sample_deps sample_sr sample_ttl1_hl15 "eth0" = .error .oob_read := by
  refine ⟨by decide, by decide, by decide, by decide, ?_⟩
  rfl

/-- C17 fails on the code when the `data` array has the 28 bytes of
`ICMP_DATA_SIZE`: for every IP packet addressed to the router that is not ICMP,
has its `ip_hl*4 + 8` bytes and declares a header of more than 5 words, the copy
in `sr_send_icmp3` writes past the end of the message and nothing is sent. -/
theorem sr_send_icmp3_copy_overflows (d : Deps) (sr : sr_instance) (ip_hdr : List Nat)
    (hsize : d.ICMP_DATA_SIZE = ICMP_DATA_SIZE)
    (hhdr : sizeof_ip_hdr ≤ ip_hdr.length)
    (hp : ip_p ip_hdr ≠ ip_protocol_icmp)
    (hread : ip_hl ip_hdr * 4 + 8 ≤ ip_hdr.length)
    (hopt : 5 < ip_hl ip_hdr) :
    sr_handle_my_ip_packet d sr ip_hdr = .error .oob_write := by
  have h20 : 20 ≤ ip_hdr.length := hhdr
  have hs : d.ICMP_DATA_SIZE = 28 := hsize
  have e0 : rd8 ip_hdr 0 = .ok (byte_at ip_hdr 0) := rd8_ok _ _ (by omega)
  have e1 : rd8 ip_hdr 9 = .ok (ip_p ip_hdr) := rd8_ok _ _ (by omega)
  have e4 : rd32 ip_hdr 16 = .ok (ip_dst ip_hdr) := rd32_ok _ _ (by omega)
  have e5 : rd32 ip_hdr 12 = .ok (ip_src ip_hdr) := rd32_ok _ _ (by omega)
  have e6 : read_bytes ip_hdr 0 (byte_at ip_hdr 0 % 16 * 4 + 8) =
      .ok (ip_hdr.take (byte_at ip_hdr 0 % 16 * 4 + 8)) := read_bytes_take _ _ hread
  have e7 : d.ICMP_DATA_SIZE < byte_at ip_hdr 0 % 16 * 4 + 8 := by
    unfold ip_hl at hopt
    omega
  simp only [sr_handle_my_ip_packet, e0, e1, e4, e5, hp, bind, Except.bind, if_false,
    sr_send_icmp3, e6, e7, if_true]

/-- A UDP datagram to the router whose IP header has one word of options. -/
theorem sr_send_icmp3_copy_overflows_witness :
    sr_handle_my_ip_packet sample_deps sample_sr (sample_udp_me_options.drop 14) =
      .error .oob_write :=
  sr_send_icmp3_copy_overflows sample_deps sample_sr (sample_udp_me_options.drop 14)
    (by decide) (by decide) (by decide) (by decide) (by decide)

/-- C18 fails on the code: the sample datagram that arrives with TTL 0 is not
addressed to the router and has a route, and it is forwarded with TTL 255. -/
theorem ttl_zero_is_forwarded_with_ttl_255 :
    frame_ip_ttl sample_transit_ttl0 = 0 ∧
    sr_handle_ip_packet sample_deps sample_sr sample_transit_ttl0 "eth0" =
      .ok ([2, 0, 0, 0, 0, 1, 2, 0, 0, 0, 0, 7, 8, 0,
            69, 0, 0, 32, 0, 0, 0, 0, 255, 17, 238, 20, 10, 0, 1, 7, 192, 168, 2, 9,
            48, 57, 0, 53, 0, 12, 0, 0, 1, 2, 3, 4],
        [Event.attempt_send 0xC0A80202
          [2, 0, 0, 0, 0, 1, 2, 0, 0, 0, 0, 2, 8, 0,
           69, 0, 0, 32, 0, 0, 0, 0, 255, 17, 238, 20, 10, 0, 1, 7, 192, 168, 2, 9,
           48, 57, 0, 53, 0, 12, 0, 0, 1, 2, 3, 4] "eth1"]) ∧
    frame_ip_ttl
      [2, 0, 0, 0, 0, 1, 2, 0, 0, 0, 0, 2, 8, 0,
       69, 0, 0, 32, 0, 0, 0, 0, 255, 17, 238, 20, 10, 0, 1, 7, 192, 168, 2, 9,
       48, 57, 0, 53, 0, 12, 0, 0, 1, 2, 3, 4] = 255 := by
  refine ⟨by decide, ?_, by decide⟩
  rfl

end SrRouter
